import Mathlib

/-!
# RobotManipulator (robot_manipulator_internal.cpp): shallow embedding

The C++ class `cosima::RobotManipulator` is embedded as a record `State` of its
member variables together with one Lean function per member function.

Modelling conventions
* C `double` values are only stored, copied and compared by this class (the
  only literals are `0.0` and `200.0`); they are modelled by `Rat`.
* C `int` / `unsigned int` values are modelled by `Int`; joint counts are tiny,
  no arithmetic wrap-around is involved on any path.
* Raw heap arrays (`double*`, `int*`) and `std::vector` / `Eigen` vectors are
  modelled by `List`; a write `a[i] = v` is `List.set`, a read `a[i]` is
  `List.getD`, matrices are stored row-major.
* `std::map<std::string,int>` is modelled by an association list with unique
  keys (the class never iterates over the map, so key order is irrelevant).
* The simulator (`b3CApiWrapperNoGui`) is an external collaborator: its queries
  are the fields of `Sim`, and the calls made to it are returned as a trace of
  `SimCall` values.
* Logging (`PRELOG`) and port registration on the task context have no
  influence on the member variables and are left out.
-/

namespace cosima

/-- Scalar type standing for C `double`. -/
abbrev Scalar := Rat

/-- The `ControlModes` enumeration of robot_manipulator_internal.hpp (the header
is not among the sources; the three enumerators are the ones the class uses). -/
inductive ControlModes where
  | JointGravComp
  | JointPosCtrl
  | JointTrqCtrl
  deriving DecidableEq

/-- Bullet control modes passed to `setJointMotorControlArray`. -/
inductive b3ControlMode where
  | CONTROL_MODE_VELOCITY
  | CONTROL_MODE_TORQUE
  | CONTROL_MODE_POSITION_VELOCITY_PD
  | CONTROL_MODE_PD
  deriving DecidableEq

/-- Bullet joint types (`JointType` of the Bullet shared-memory API). -/
inductive JointType where
  | eRevoluteType
  | ePrismaticType
  | eSphericalType
  | ePlanarType
  | eFixedType
  | ePoint2PointType
  | eGearType
  deriving DecidableEq

/-- The fields of Bullet `b3JointInfo` that `configure` reads. -/
structure b3JointInfo where
  m_jointIndex : Int
  m_jointType : JointType
  m_jointName : String
  deriving DecidableEq

/-- The fields of Bullet `b3JointSensorState` that `sense` reads. -/
structure b3JointSensorState where
  m_jointPosition : Scalar
  m_jointVelocity : Scalar
  deriving DecidableEq

/-- RTT flow status returned by an input port read. -/
inductive FlowStatus where
  | NoData
  | OldData
  | NewData
  deriving DecidableEq

/-- Bullet `b3RobotSimulatorJointMotorArrayArgs`: the constructor sets the
control mode and the number of controlled dofs and leaves every array pointer
null (`none`); a pointer assigned from a buffer is modelled by the contents of
that buffer at the time of the call. -/
structure b3RobotSimulatorJointMotorArrayArgs where
  m_controlMode : b3ControlMode
  m_numControlledDofs : Int
  m_jointIndices : Option (List Int) := none
  m_targetPositions : Option (List Scalar) := none
  m_forces : Option (List Scalar) := none
  deriving DecidableEq

/-- Calls made on the simulator that the embedding records. -/
inductive SimCall where
  | getJointState (bodyUniqueId : Int) (jointIndex : Int)
  | calculateInverseDynamics (bodyUniqueId : Int)
      (jointPositions jointVelocities jointAccelerations : List Scalar)
  | calculateMassMatrix (bodyUniqueId : Int) (jointPositions : List Scalar)
      (numJoints : Int) (flags : Int)
  | setJointMotorControlArray (bodyUniqueId : Int)
      (args : b3RobotSimulatorJointMotorArrayArgs)
  deriving DecidableEq

/-- Answers of the simulator to the queries the class makes; a query that
fills an output buffer (`calculateInverseDynamics`, `calculateMassMatrix`)
returns the contents of that buffer after the call. -/
structure Sim where
  isConnected : Bool
  getNumJoints : Int → Int
  getJointInfo : Int → Nat → b3JointInfo
  getJointState : Int → Int → b3JointSensorState
  calculateInverseDynamics : Int → List Scalar → List Scalar → List Scalar → List Scalar
  calculateMassMatrix : Int → List Scalar → Int → Int → List Scalar

/-- The `std::map<std::string,int>` from joint names to simulator indices. -/
abbrev NameMap := List (String × Int)

/-- Lookup of a key (`find`). -/
def NameMap.find : NameMap → String → Option Int
  | [], _ => none
  | (k, v) :: m, key => if k = key then some v else NameMap.find m key

/-- The `count` member: 1 when the key is present, 0 otherwise. -/
def NameMap.count (m : NameMap) (key : String) : Nat :=
  match NameMap.find m key with
  | some _ => 1
  | none => 0

/-- Assignment `m[key] = v`: overwrite the entry of an existing key, insert a
new entry otherwise. -/
def NameMap.assign : NameMap → String → Int → NameMap
  | [], key, v => [(key, v)]
  | (k, w) :: m, key, v =>
    if k = key then (k, v) :: m else (k, w) :: NameMap.assign m key v

/-- Read access `m[key]` on a non-const map: returns the stored value, and
inserts a value-initialised entry (0) when the key is absent. -/
def NameMap.index (m : NameMap) (key : String) : Int × NameMap :=
  match NameMap.find m key with
  | some v => (v, m)
  | none => (0, NameMap.assign m key 0)

/-- Member variables of `RobotManipulator`. -/
structure State where
  robot_id : Int
  robot_name : String
  active_control_mode : ControlModes
  requested_control_mode : ControlModes
  num_joints : Int
  map_joint_names_2_indices : NameMap
  vec_joint_indices : List Int
  joint_indices : List Int
  zero_forces : List Scalar
  zero_accelerations : List Scalar
  max_forces : List Scalar
  target_positions : List Scalar
  q : List Scalar
  qd : List Scalar
  gc : List Scalar
  M : List Scalar
  cmd_trq : List Scalar
  cmd_pos : List Scalar
  in_JointPositionCtrl_cmd_var : List Scalar
  in_JointPositionCtrl_cmd_flow : FlowStatus
  in_JointTorqueCtrl_cmd_var : List Scalar
  in_JointTorqueCtrl_cmd_flow : FlowStatus
  out_position_fdb_var : List Scalar
  out_velocities_fdb_var : List Scalar
  out_gc_fdb_var : List Scalar
  out_inertia_fdb_var : List Scalar
  deriving DecidableEq

/-- A counted loop `for (unsigned int i = 0; i < n; i++) body`. -/
def forLoop {σ : Type} (n : Nat) (body : Nat → σ → σ) (init : σ) : σ :=
  (List.range n).foldl (fun acc i => body i acc) init

/-- Iteration count of `for (unsigned int i = 0; i < bound; i++)` for a
non-negative `bound`. The model is faithful for `bound ≥ 0` only: with a
negative bound (the marker -1 that a failed `configure` stores in
`num_joints`) the C++ comparison is made on unsigned values and the loop body
runs out of bounds, which the model does not reproduce; it runs no iteration
there. -/
def loopCount (bound : Int) : Nat := bound.toNat

/-- The constructor: member variables it does not initialise keep the values
of `uninit`. -/
def RobotManipulator (name : String) (model_id : Int) (uninit : State) : State :=
  { uninit with
    robot_id := model_id
    robot_name := name
    active_control_mode := ControlModes.JointGravComp
    requested_control_mode := ControlModes.JointPosCtrl }

/-- Contents of freshly allocated, uninitialised heap memory (`new T[n]`,
`malloc`): arbitrary values, supplied from outside. -/
structure Heap where
  ints : Nat → Int
  doubles : Nat → Scalar

/-- Allocation `new int[n]`: `n` entries of indeterminate content. -/
def Heap.newInt (h : Heap) (n : Nat) : List Int := (List.range n).map h.ints

/-- Allocation `new double[n]` (or `malloc` of `n` doubles): `n` entries of
indeterminate content. -/
def Heap.newDouble (h : Heap) (n : Nat) : List Scalar := (List.range n).map h.doubles

/-- Result of `port.read(var)` as delivered by the framework in one cycle. -/
structure PortRead where
  flow : FlowStatus
  sample : List Scalar
  deriving DecidableEq

/-- The framework call `port.read(var)`: with `NoData` the variable is left
alone, otherwise the delivered sample is stored in it; the flow status is
returned. -/
def PortRead.read (r : PortRead) (var : List Scalar) : FlowStatus × List Scalar :=
  if r.flow = FlowStatus.NoData then (FlowStatus.NoData, var) else (r.flow, r.sample)

/-- One iteration of the first loop of `sense` (lines 57-68). -/
def senseStep (sim : Sim) (j : Nat) (acc : State × List SimCall) : State × List SimCall :=
  let s := acc.1
  let jointIndex := s.joint_indices.getD j 0
  let state := sim.getJointState s.robot_id jointIndex
  let q := s.q.set j state.m_jointPosition
  let qd := s.qd.set j state.m_jointVelocity
  ({ s with
      q := q
      qd := qd
      zero_accelerations := s.zero_accelerations.set j 0
      out_position_fdb_var := s.out_position_fdb_var.set j (q.getD j 0)
      out_velocities_fdb_var := s.out_velocities_fdb_var.set j (qd.getD j 0) },
   acc.2 ++ [SimCall.getJointState s.robot_id jointIndex])

/-- The member function `sense` (lines 49-92). -/
def sense (sim : Sim) (s : State) : State × List SimCall :=
  let r1 := forLoop (loopCount s.num_joints) (senseStep sim) (s, [])
  let s1 := r1.1
  let gc := sim.calculateInverseDynamics s1.robot_id s1.q s1.qd s1.zero_accelerations
  let s2 := { s1 with gc := gc }
  let s3 := { s2 with
    out_gc_fdb_var :=
      forLoop (loopCount s2.num_joints) (fun j v => v.set j (s2.gc.getD j 0)) s2.out_gc_fdb_var }
  let M := sim.calculateMassMatrix s3.robot_id s3.q s3.num_joints 0
  let s4 := { s3 with M := M }
  let n := loopCount s4.num_joints
  let s5 := { s4 with
    out_inertia_fdb_var :=
      forLoop n (fun u m => forLoop n (fun v m => m.set (u * n + v) (s4.M.getD (u * n + v) 0)) m)
        s4.out_inertia_fdb_var }
  (s5, r1.2 ++
    [SimCall.calculateInverseDynamics s1.robot_id s1.q s1.qd s1.zero_accelerations,
     SimCall.calculateMassMatrix s3.robot_id s3.q s3.num_joints 0])

/-- The four samples published by `writeToOrocos`, in port order. -/
structure Published where
  out_position_fdb : List Scalar
  out_velocities_fdb : List Scalar
  out_gc_fdb : List Scalar
  out_inertia_fdb : List Scalar
  deriving DecidableEq

/-- The member function `writeToOrocos` (lines 94-100). -/
def writeToOrocos (s : State) : State × Published :=
  (s, { out_position_fdb := s.out_position_fdb_var
        out_velocities_fdb := s.out_velocities_fdb_var
        out_gc_fdb := s.out_gc_fdb_var
        out_inertia_fdb := s.out_inertia_fdb_var })

/-- The member function `readFromOrocos` (lines 102-120); the two arguments are
what the two input ports deliver in this cycle. Entry `i` of a received vector
is read with `getD`; the model is faithful when the received vector has at
least `num_joints` entries (the code reads the Eigen vector without a bounds
check) and `num_joints ≥ 0`. -/
def readFromOrocos (posPort trqPort : PortRead) (s : State) : State :=
  let p := posPort.read s.in_JointPositionCtrl_cmd_var
  let s1 := { s with in_JointPositionCtrl_cmd_flow := p.1, in_JointPositionCtrl_cmd_var := p.2 }
  let s2 :=
    if s1.in_JointPositionCtrl_cmd_flow ≠ FlowStatus.NoData then
      { s1 with
        cmd_pos := forLoop (loopCount s1.num_joints)
          (fun i buf => buf.set i (s1.in_JointPositionCtrl_cmd_var.getD i 0)) s1.cmd_pos }
    else s1
  let t := trqPort.read s2.in_JointTorqueCtrl_cmd_var
  let s3 := { s2 with in_JointTorqueCtrl_cmd_flow := t.1, in_JointTorqueCtrl_cmd_var := t.2 }
  if s3.in_JointTorqueCtrl_cmd_flow ≠ FlowStatus.NoData then
    { s3 with
      cmd_trq := forLoop (loopCount s3.num_joints)
        (fun i buf => buf.set i (s3.in_JointTorqueCtrl_cmd_var.getD i 0)) s3.cmd_trq }
  else s3

/-- The release-brakes command of `act` (lines 135-139). -/
def releaseBrakesCall (s : State) : SimCall :=
  SimCall.setJointMotorControlArray s.robot_id
    { m_controlMode := b3ControlMode.CONTROL_MODE_VELOCITY
      m_numControlledDofs := s.num_joints
      m_jointIndices := some s.joint_indices
      m_forces := some s.zero_forces }

/-- The PD mode-configuration command of `act` (lines 156-161). -/
def pdSetupCall (s : State) : SimCall :=
  SimCall.setJointMotorControlArray s.robot_id
    { m_controlMode := b3ControlMode.CONTROL_MODE_POSITION_VELOCITY_PD
      m_numControlledDofs := s.num_joints
      m_jointIndices := some s.joint_indices
      m_forces := some s.max_forces
      m_targetPositions := some s.target_positions }

/-- The torque-mode array write of `act` (lines 172-175, 179-182, 186-189). -/
def torqueCall (s : State) (forces : List Scalar) : SimCall :=
  SimCall.setJointMotorControlArray s.robot_id
    { m_controlMode := b3ControlMode.CONTROL_MODE_TORQUE
      m_numControlledDofs := s.num_joints
      m_jointIndices := some s.joint_indices
      m_forces := some forces }

/-- First half of `act` (lines 127-165): the control mode switch. -/
def actSwitch (s : State) : State × List SimCall :=
  if s.requested_control_mode ≠ s.active_control_mode then
    let calls : List SimCall :=
      if s.requested_control_mode = ControlModes.JointTrqCtrl
          ∨ s.requested_control_mode = ControlModes.JointGravComp then
        if s.active_control_mode ≠ ControlModes.JointTrqCtrl
            ∨ s.active_control_mode ≠ ControlModes.JointGravComp then
          [releaseBrakesCall s]
        else []
      else if s.requested_control_mode = ControlModes.JointPosCtrl then
        [pdSetupCall s]
      else []
    ({ s with active_control_mode := s.requested_control_mode }, calls)
  else (s, [])

/-- Second half of `act` (lines 170-190): the command of the cycle. -/
def actSend (s : State) : List SimCall :=
  if s.active_control_mode = ControlModes.JointGravComp then [torqueCall s s.gc]
  else if s.active_control_mode = ControlModes.JointPosCtrl then [torqueCall s s.cmd_pos]
  else if s.active_control_mode = ControlModes.JointTrqCtrl then [torqueCall s s.cmd_trq]
  else []

/-- The member function `act` (lines 122-191): the new state and the simulator
calls in the order they are made. -/
def act (s : State) : State × List SimCall :=
  ((actSwitch s).1, (actSwitch s).2 ++ actSend (actSwitch s).1)

/-- One iteration of the second loop of `setActiveKinematicChain`
(lines 211-215). -/
def chainStep (jointNames : List String) (i : Nat) (s : State) : State :=
  let r := NameMap.index s.map_joint_names_2_indices (jointNames.getD i "")
  let vec := s.vec_joint_indices.set i r.1
  { s with
    map_joint_names_2_indices := r.2
    vec_joint_indices := vec
    joint_indices := s.joint_indices.set i (vec.getD i 0) }

/-- The member function `setActiveKinematicChain` (lines 193-217). -/
def setActiveKinematicChain (s : State) (jointNames : List String) : Bool × State :=
  if jointNames.length ≠ s.vec_joint_indices.length then (false, s)
  else if (List.range jointNames.length).all
      (fun i => NameMap.count s.map_joint_names_2_indices (jointNames.getD i "") != 0) then
    (true, forLoop jointNames.length (chainStep jointNames) s)
  else (false, s)

/-- The member function `setControlMode` (lines 219-233); it has no return
statement, so only its effect on the state is modelled. -/
def setControlMode (s : State) (controlMode : String) : State :=
  if controlMode = "JointPositionCtrl" then
    { s with requested_control_mode := ControlModes.JointPosCtrl }
  else if controlMode = "JointTorqueCtrl" then
    { s with requested_control_mode := ControlModes.JointTrqCtrl }
  else if controlMode = "JointGravComp" then
    { s with requested_control_mode := ControlModes.JointGravComp }
  else s

/-- One iteration of the joint discovery loop of `configure` (lines 260-271). -/
def discoverStep (sim : Sim) (robot_id : Int) (i : Nat) (acc : NameMap × List Int) :
    NameMap × List Int :=
  let jointInfo := sim.getJointInfo robot_id i
  let qIndex := jointInfo.m_jointIndex
  if qIndex > -1 ∧ jointInfo.m_jointType ≠ JointType.eFixedType then
    (NameMap.assign acc.1 jointInfo.m_jointName qIndex, acc.2 ++ [qIndex])
  else acc

/-- One iteration of the initialisation loop of `configure` (lines 296-316). -/
def initStep (i : Nat) (s : State) : State :=
  let n := loopCount s.num_joints
  { s with
    joint_indices := s.joint_indices.set i (s.vec_joint_indices.getD i 0)
    zero_forces := s.zero_forces.set i 0
    max_forces := s.max_forces.set i 200
    target_positions := s.target_positions.set i 0
    zero_accelerations := s.zero_accelerations.set i 0
    q := s.q.set i 0
    qd := s.qd.set i 0
    gc := s.gc.set i 0
    M := forLoop n (fun j m => m.set (i * n + j) 0) s.M
    cmd_trq := s.cmd_trq.set i 0
    cmd_pos := s.cmd_pos.set i 0 }

/-- Joint discovery and buffer allocation of `configure` (lines 257-294). -/
def configureAlloc (sim : Sim) (heap : Heap) (s : State) (_num_joints : Int) : State :=
  let found := forLoop (loopCount _num_joints) (discoverStep sim s.robot_id) ([], [])
  let n := found.2.length
  { s with
    map_joint_names_2_indices := found.1
    vec_joint_indices := found.2
    num_joints := (n : Int)
    joint_indices := heap.newInt n
    zero_forces := heap.newDouble n
    zero_accelerations := heap.newDouble n
    max_forces := heap.newDouble n
    target_positions := heap.newDouble n
    q := heap.newDouble n
    qd := heap.newDouble n
    gc := heap.newDouble n
    M := heap.newDouble (n * n)
    cmd_trq := heap.newDouble n
    cmd_pos := heap.newDouble n }

/-- Port variables of `configure` (lines 318-377): every port variable is set
to a zero vector or matrix of the current joint count, both flow flags to
`NoData`. -/
def configurePorts (s : State) : State :=
  let n := loopCount s.num_joints
  { s with
    in_JointPositionCtrl_cmd_var := List.replicate n 0
    in_JointPositionCtrl_cmd_flow := FlowStatus.NoData
    in_JointTorqueCtrl_cmd_var := List.replicate n 0
    in_JointTorqueCtrl_cmd_flow := FlowStatus.NoData
    out_gc_fdb_var := List.replicate n 0
    out_inertia_fdb_var := List.replicate (n * n) 0
    out_position_fdb_var := List.replicate n 0
    out_velocities_fdb_var := List.replicate n 0 }

/-- The success path of `configure` after the joint count check (lines
257-381): joint discovery and allocation, the initialisation loop, the port
variables, and the final `setControlMode` call. -/
def configureSetup (sim : Sim) (heap : Heap) (s : State) (_num_joints : Int) : State :=
  let s1 := configureAlloc sim heap s _num_joints
  let s2 := forLoop (loopCount s1.num_joints) initStep s1
  setControlMode (configurePorts s2) "JointPositionCtrl"

/-- The member function `configure` (lines 235-388). The call `syncBodies`
acts on the simulator only and is not recorded. -/
def configure (sim : Sim) (heap : Heap) (s : State) : Bool × State :=
  if sim.isConnected then
    if s.robot_id < 0 then (false, s)
    else
      let _num_joints := sim.getNumJoints s.robot_id
      if _num_joints ≤ 0 then (false, { s with num_joints := -1 })
      else (true, configureSetup sim heap s _num_joints)
  else (false, s)

/-! ## Auxiliary vocabulary for the statements -/

/-- The joint records the simulator reports for indices `0 .. k-1`, in order. -/
def reportedJoints (sim : Sim) (robot_id : Int) (k : Nat) : List b3JointInfo :=
  (List.range k).map (sim.getJointInfo robot_id)

/-- The test of line 265 of `configure`. -/
def isActiveJoint (j : b3JointInfo) : Bool :=
  decide (j.m_jointIndex > -1 ∧ j.m_jointType ≠ JointType.eFixedType)

/-- The reported joints that pass the test of line 265, in report order. -/
def activeJoints (sim : Sim) (robot_id : Int) (k : Nat) : List b3JointInfo :=
  (reportedJoints sim robot_id k).filter isActiveJoint

/-- The reported joints whose type is not the fixed type, in report order (the
selection the specification describes). -/
def nonFixedJoints (sim : Sim) (robot_id : Int) (k : Nat) : List b3JointInfo :=
  (reportedJoints sim robot_id k).filter
    (fun j => decide (j.m_jointType ≠ JointType.eFixedType))

/-- The value `m[key]` reads from the map: the stored index, 0 for a missing key. -/
def NameMap.value (m : NameMap) (key : String) : Int :=
  (NameMap.find m key).getD 0

/-- A buffer whose first `k` entries have been overwritten by `f 0, .., f (k-1)`. -/
def overwritten {α : Type} (k : Nat) (f : Nat → α) (l : List α) : List α :=
  (List.range k).map f ++ l.drop k

/-- Number of mode-setup calls (velocity mode or PD mode) in a trace. -/
def setupCalls (calls : List SimCall) : Nat :=
  (calls.filter (fun c =>
    match c with
    | SimCall.setJointMotorControlArray _ args =>
      decide (args.m_controlMode = b3ControlMode.CONTROL_MODE_VELOCITY
        ∨ args.m_controlMode = b3ControlMode.CONTROL_MODE_POSITION_VELOCITY_PD)
    | _ => false)).length

/-! ## A concrete robot used to instantiate the theorems -/

/-- A connected simulator reporting three joints: two revolute joints and one
fixed joint between them. -/
def demoSim : Sim where
  isConnected := true
  getNumJoints := fun _ => 3
  getJointInfo := fun _ i =>
    match i with
    | 0 => { m_jointIndex := 0, m_jointType := JointType.eRevoluteType, m_jointName := "shoulder" }
    | 1 => { m_jointIndex := 1, m_jointType := JointType.eFixedType, m_jointName := "flange" }
    | _ => { m_jointIndex := 2, m_jointType := JointType.eRevoluteType, m_jointName := "elbow" }
  getJointState := fun _ j => { m_jointPosition := j, m_jointVelocity := -j }
  calculateInverseDynamics := fun _ q _ _ => q
  calculateMassMatrix := fun _ q _ _ => List.replicate (q.length * q.length) 1

/-- Arbitrary non-zero heap garbage. -/
def demoHeap : Heap where
  ints := fun i => 7 + i
  doubles := fun i => 9 + i

/-- Member variables before construction: nothing allocated. -/
def blankState : State where
  robot_id := 0
  robot_name := ""
  active_control_mode := ControlModes.JointTrqCtrl
  requested_control_mode := ControlModes.JointTrqCtrl
  num_joints := 0
  map_joint_names_2_indices := []
  vec_joint_indices := []
  joint_indices := []
  zero_forces := []
  zero_accelerations := []
  max_forces := []
  target_positions := []
  q := []
  qd := []
  gc := []
  M := []
  cmd_trq := []
  cmd_pos := []
  in_JointPositionCtrl_cmd_var := []
  in_JointPositionCtrl_cmd_flow := FlowStatus.NoData
  in_JointTorqueCtrl_cmd_var := []
  in_JointTorqueCtrl_cmd_flow := FlowStatus.NoData
  out_position_fdb_var := []
  out_velocities_fdb_var := []
  out_gc_fdb_var := []
  out_inertia_fdb_var := []

/-- The manipulator "arm" for body 0, freshly constructed. -/
def demoInit : State := RobotManipulator "arm" 0 blankState

/-- The manipulator "arm" after `configure` against `demoSim`. -/
def demoState : State := (configure demoSim demoHeap demoInit).2

/-- The demo robot holding gravity compensation with gravity vector 1, 2 and
pending commands in both command buffers. -/
def gravState : State :=
  { demoState with
    active_control_mode := ControlModes.JointGravComp
    requested_control_mode := ControlModes.JointGravComp
    gc := [1, 2]
    cmd_pos := [3, 4]
    cmd_trq := [5, 6] }

/-- The state `gravState` with position control requested. -/
def gravToPosState : State :=
  { gravState with requested_control_mode := ControlModes.JointPosCtrl }

/-- The demo robot in torque control with gravity compensation requested. -/
def trqToGravState : State :=
  { gravState with
    active_control_mode := ControlModes.JointTrqCtrl
    requested_control_mode := ControlModes.JointGravComp }

/-- A connected simulator whose body 0 reports no joints at all. -/
def emptySim : Sim :=
  { demoSim with getNumJoints := fun _ => 0 }

/-- A simulator that is not connected. -/
def offlineSim : Sim :=
  { demoSim with isConnected := false }

/-- A connected simulator reporting two non-fixed joints, the second with
joint index -1. -/
def negIndexSim : Sim :=
  { demoSim with
    getNumJoints := fun _ => 2
    getJointInfo := fun _ i =>
      match i with
      | 0 => { m_jointIndex := 0, m_jointType := JointType.eRevoluteType, m_jointName := "base" }
      | _ => { m_jointIndex := -1, m_jointType := JointType.ePrismaticType,
               m_jointName := "slider" } }

/-- A cycle in which the position port has nothing. -/
def silentPort : PortRead := { flow := FlowStatus.NoData, sample := [7, 7] }

/-- A cycle in which the torque port delivers the sample 8, 9. -/
def freshTorquePort : PortRead := { flow := FlowStatus.NewData, sample := [8, 9] }

/-- A connected simulator whose body 0 reports two joints, both of the fixed
type. -/
def allFixedSim : Sim :=
  { demoSim with
    getNumJoints := fun _ => 2
    getJointInfo := fun _ i =>
      match i with
      | 0 => { m_jointIndex := 0, m_jointType := JointType.eFixedType, m_jointName := "mount" }
      | _ => { m_jointIndex := 1, m_jointType := JointType.eFixedType, m_jointName := "plate" } }

/-- The demo robot in gravity compensation with torque control requested. -/
def gravToTrqState : State :=
  { gravState with requested_control_mode := ControlModes.JointTrqCtrl }

/-- One call of a member function after construction and `configure`, with
the inputs the environment supplies to it. -/
inductive Call where
  | setActiveKinematicChain (jointNames : List String)
  | setControlMode (controlMode : String)
  | readFromOrocos (posPort trqPort : PortRead)
  | sense (sim : Sim)
  | act
  | writeToOrocos

/-- The state after one call. -/
def applyCall (c : Call) (s : State) : State :=
  match c with
  | Call.setActiveKinematicChain jointNames => (setActiveKinematicChain s jointNames).2
  | Call.setControlMode controlMode => setControlMode s controlMode
  | Call.readFromOrocos posPort trqPort => readFromOrocos posPort trqPort s
  | Call.sense sim => (sense sim s).1
  | Call.act => (act s).1
  | Call.writeToOrocos => (writeToOrocos s).1

/-- The state after a sequence of calls, made in list order. -/
def runCalls (calls : List Call) (s : State) : State :=
  calls.foldl (fun t c => applyCall c t) s

/-- A connected simulator reporting two revolute joints, "a" and "b", both with
joint index 5. -/
def twinIndexSim : Sim :=
  { demoSim with
    getNumJoints := fun _ => 2
    getJointInfo := fun _ i =>
      match i with
      | 0 => { m_jointIndex := 5, m_jointType := JointType.eRevoluteType, m_jointName := "a" }
      | _ => { m_jointIndex := 5, m_jointType := JointType.eRevoluteType, m_jointName := "b" } }

/-- The calls that bring the configured demo robot into gravity compensation
and then request torque control. -/
def toTorqueCalls : List Call :=
  [Call.setControlMode "JointGravComp", Call.act, Call.setControlMode "JointTorqueCtrl"]

/-! ## General lemmas -/

theorem forLoop_zero {σ : Type} (body : Nat → σ → σ) (init : σ) :
    forLoop 0 body init = init := rfl

theorem forLoop_succ {σ : Type} (n : Nat) (body : Nat → σ → σ) (init : σ) :
    forLoop (n + 1) body init = body n (forLoop n body init) := by
  simp [forLoop, List.range_succ, List.foldl_append]

theorem overwritten_zero {α : Type} (f : Nat → α) (l : List α) : overwritten 0 f l = l := by
  simp [overwritten]

theorem overwritten_length {α : Type} (k : Nat) (f : Nat → α) (l : List α)
    (hk : k ≤ l.length) : (overwritten k f l).length = l.length := by
  simp [overwritten]; omega

theorem overwritten_all {α : Type} (f : Nat → α) (l : List α) :
    overwritten l.length f l = (List.range l.length).map f := by
  simp [overwritten]

theorem overwritten_set {α : Type} (k : Nat) (f : Nat → α) (l : List α)
    (hk : k < l.length) :
    (overwritten k f l).set k (f k) = overwritten (k + 1) f l := by
  apply List.ext_getElem?
  intro i
  simp only [overwritten, List.getElem?_set, List.getElem?_append, List.length_map,
    List.length_range, List.getElem?_map, List.getElem?_range, List.getElem?_drop,
    List.length_append, List.length_drop]
  by_cases h1 : k = i
  · subst h1
    simp [hk]
  · by_cases h2 : i < k
    · have h3 : i < k + 1 := by omega
      simp [h1, h2, h3, List.getElem?_range]
    · have h3 : ¬ i < k + 1 := by omega
      have h4 : k + 1 + (i - (k + 1)) = k + (i - k) := by omega
      simp [h1, h2, h3, h4]

theorem overwritten_getD {α : Type} (k : Nat) (f : Nat → α) (l : List α) (d : α) :
    (overwritten (k + 1) f l).getD k d = f k := by
  simp [overwritten, List.getD_eq_getElem?_getD, List.getElem?_append, List.getElem?_range]

theorem NameMap.find_assign (m : NameMap) (key : String) (v : Int) (key2 : String) :
    NameMap.find (NameMap.assign m key v) key2
      = if key = key2 then some v else NameMap.find m key2 := by
  induction m with
  | nil => simp [NameMap.assign, NameMap.find]
  | cons p m ih =>
    obtain ⟨k, w⟩ := p
    by_cases h : k = key
    · subst h
      by_cases h2 : k = key2 <;> simp [NameMap.assign, NameMap.find, h2]
    · by_cases h2 : k = key2
      · subst h2
        have h3 : ¬ key = k := fun e => h e.symm
        simp [NameMap.assign, NameMap.find, h, h3]
      · simp [NameMap.assign, NameMap.find, h, h2, ih]

theorem NameMap.index_of_find (m : NameMap) (key : String) (v : Int)
    (h : NameMap.find m key = some v) : NameMap.index m key = (v, m) := by
  simp [NameMap.index, h]

theorem NameMap.count_ne_zero (m : NameMap) (key : String) :
    (NameMap.count m key != 0) = true ↔ ∃ v, NameMap.find m key = some v := by
  unfold NameMap.count
  cases h : NameMap.find m key <;> simp

theorem range_map_getD {α : Type} (l : List α) (d : α) :
    (List.range l.length).map (fun i => l.getD i d) = l := by
  apply List.ext_getElem?
  intro i
  by_cases h : i < l.length
  · simp [List.getElem?_range, h, List.getD_eq_getElem?_getD]
  · have h2 : l.length ≤ i := by omega
    simp [List.getElem?_range, h, List.getElem?_eq_none h2]
    exact h2

theorem setControlMode_frame (s : State) (m : String) :
    { setControlMode s m with requested_control_mode := s.requested_control_mode } = s := by
  unfold setControlMode
  split
  · rfl
  · split
    · rfl
    · split <;> rfl

theorem chainLoop_known (jointNames : List String) (s : State) (k : Nat)
    (hk1 : k ≤ s.vec_joint_indices.length) (hk2 : k ≤ s.joint_indices.length)
    (hall : ∀ i, i < k →
      ∃ v, NameMap.find s.map_joint_names_2_indices (jointNames.getD i "") = some v) :
    forLoop k (chainStep jointNames) s =
      { s with
        vec_joint_indices := overwritten k
          (fun i => NameMap.value s.map_joint_names_2_indices (jointNames.getD i ""))
          s.vec_joint_indices
        joint_indices := overwritten k
          (fun i => NameMap.value s.map_joint_names_2_indices (jointNames.getD i ""))
          s.joint_indices } := by
  induction k with
  | zero => simp [forLoop_zero, overwritten_zero]
  | succ k ih =>
    have hk1lt : k < s.vec_joint_indices.length := by omega
    have hk2lt : k < s.joint_indices.length := by omega
    rw [forLoop_succ, ih (by omega) (by omega) (fun i hi => hall i (by omega))]
    obtain ⟨v, hv⟩ := hall k (by omega)
    have hval : NameMap.value s.map_joint_names_2_indices (jointNames.getD k "") = v := by
      unfold NameMap.value
      rw [hv]
      rfl
    have e1 := overwritten_set k
      (fun i => NameMap.value s.map_joint_names_2_indices (jointNames.getD i ""))
      s.vec_joint_indices hk1lt
    have e2 := overwritten_set k
      (fun i => NameMap.value s.map_joint_names_2_indices (jointNames.getD i ""))
      s.joint_indices hk2lt
    have e3 := overwritten_getD k
      (fun i => NameMap.value s.map_joint_names_2_indices (jointNames.getD i ""))
      s.vec_joint_indices 0
    simp only [hval] at e1 e2 e3
    simp only [chainStep, NameMap.index_of_find _ _ _ hv, e1, e3, e2]

theorem activeJoints_succ (sim : Sim) (robot_id : Int) (k : Nat) :
    activeJoints sim robot_id (k + 1) =
      activeJoints sim robot_id k ++
        (if isActiveJoint (sim.getJointInfo robot_id k) = true
          then [sim.getJointInfo robot_id k] else []) := by
  simp only [activeJoints, reportedJoints, List.range_succ, List.map_append, List.filter_append,
    List.map_cons, List.map_nil]
  by_cases h : isActiveJoint (sim.getJointInfo robot_id k) = true
  · simp [h]
  · simp [h]

theorem discoverLoop_eq (sim : Sim) (robot_id : Int) (k : Nat) :
    forLoop k (discoverStep sim robot_id) ([], []) =
      ((activeJoints sim robot_id k).foldl
          (fun m j => NameMap.assign m j.m_jointName j.m_jointIndex) [],
        (activeJoints sim robot_id k).map (fun j => j.m_jointIndex)) := by
  induction k with
  | zero => simp [forLoop_zero, activeJoints, reportedJoints]
  | succ k ih =>
    rw [forLoop_succ, ih, activeJoints_succ]
    unfold discoverStep
    by_cases h : isActiveJoint (sim.getJointInfo robot_id k) = true
    · have h2 := h
      simp only [isActiveJoint, decide_eq_true_eq] at h2
      simp [h, h2, List.foldl_append]
    · have h2 := h
      simp only [isActiveJoint, decide_eq_true_eq] at h2
      simp [h, h2]

theorem initLoop_indices (s : State) (k : Nat) (hk : k ≤ s.joint_indices.length) :
    (forLoop k initStep s).map_joint_names_2_indices = s.map_joint_names_2_indices
    ∧ (forLoop k initStep s).vec_joint_indices = s.vec_joint_indices
    ∧ (forLoop k initStep s).num_joints = s.num_joints
    ∧ (forLoop k initStep s).robot_id = s.robot_id
    ∧ (forLoop k initStep s).active_control_mode = s.active_control_mode
    ∧ (forLoop k initStep s).requested_control_mode = s.requested_control_mode
    ∧ (forLoop k initStep s).joint_indices
        = overwritten k (fun i => s.vec_joint_indices.getD i 0) s.joint_indices := by
  induction k with
  | zero => simp [forLoop_zero, overwritten_zero]
  | succ k ih =>
    obtain ⟨h1, h2, h3, h4, h5, h6, h7⟩ := ih (by omega)
    rw [forLoop_succ]
    refine ⟨?_, ?_, ?_, ?_, ?_, ?_, ?_⟩
    · simpa [initStep] using h1
    · simpa [initStep] using h2
    · simpa [initStep] using h3
    · simpa [initStep] using h4
    · simpa [initStep] using h5
    · simpa [initStep] using h6
    · have e := overwritten_set k (fun i => s.vec_joint_indices.getD i 0) s.joint_indices
        (by omega)
      simp only [initStep, h7, h2]
      exact e

theorem configureAlloc_indices (sim : Sim) (heap : Heap) (s : State) (n : Int) :
    (configureAlloc sim heap s n).vec_joint_indices
        = (activeJoints sim s.robot_id n.toNat).map (fun j => j.m_jointIndex)
    ∧ (configureAlloc sim heap s n).map_joint_names_2_indices
        = (activeJoints sim s.robot_id n.toNat).foldl
            (fun m j => NameMap.assign m j.m_jointName j.m_jointIndex) []
    ∧ (configureAlloc sim heap s n).num_joints
        = ((activeJoints sim s.robot_id n.toNat).length : Int)
    ∧ (configureAlloc sim heap s n).joint_indices.length
        = (activeJoints sim s.robot_id n.toNat).length := by
  have hd := discoverLoop_eq sim s.robot_id n.toNat
  simp [configureAlloc, loopCount, hd, Heap.newInt]

theorem configureSetup_indices (sim : Sim) (heap : Heap) (s : State) (n : Int) :
    (configureSetup sim heap s n).vec_joint_indices
        = (activeJoints sim s.robot_id n.toNat).map (fun j => j.m_jointIndex)
    ∧ (configureSetup sim heap s n).map_joint_names_2_indices
        = (activeJoints sim s.robot_id n.toNat).foldl
            (fun m j => NameMap.assign m j.m_jointName j.m_jointIndex) []
    ∧ (configureSetup sim heap s n).num_joints
        = ((activeJoints sim s.robot_id n.toNat).length : Int)
    ∧ (configureSetup sim heap s n).joint_indices
        = (activeJoints sim s.robot_id n.toNat).map (fun j => j.m_jointIndex) := by
  obtain ⟨a1, a2, a3, a4⟩ := configureAlloc_indices sim heap s n
  have hf := fun t m => setControlMode_frame t m
  have p1 : ∀ t m, (setControlMode t m).vec_joint_indices = t.vec_joint_indices :=
    fun t m => by
      have h := congrArg State.vec_joint_indices (hf t m)
      exact h
  have p2 : ∀ t m, (setControlMode t m).map_joint_names_2_indices
      = t.map_joint_names_2_indices :=
    fun t m => by
      have h := congrArg State.map_joint_names_2_indices (hf t m)
      exact h
  have p3 : ∀ t m, (setControlMode t m).num_joints = t.num_joints :=
    fun t m => by
      have h := congrArg State.num_joints (hf t m)
      exact h
  have p4 : ∀ t m, (setControlMode t m).joint_indices = t.joint_indices :=
    fun t m => by
      have h := congrArg State.joint_indices (hf t m)
      exact h
  have hc : loopCount (configureAlloc sim heap s n).num_joints
      = (configureAlloc sim heap s n).joint_indices.length := by
    rw [a3, a4]
    simp [loopCount]
  obtain ⟨i1, i2, i3, _, _, _, i7⟩ := initLoop_indices (configureAlloc sim heap s n)
    (loopCount (configureAlloc sim heap s n).num_joints) (by omega)
  unfold configureSetup
  simp only [p1, p2, p3, p4, configurePorts]
  refine ⟨i2.trans a1, i1.trans a2, i3.trans a3, ?_⟩
  rw [i7, hc, overwritten_all, a4, a1]
  have e := range_map_getD
    ((activeJoints sim s.robot_id n.toNat).map (fun j => j.m_jointIndex)) 0
  simpa using e

theorem range_map_comp_getD {α β : Type} (l : List α) (d : α) (g : α → β) :
    (List.range l.length).map (fun i => g (l.getD i d)) = l.map g := by
  have e := congrArg (List.map g) (range_map_getD l d)
  rw [List.map_map] at e
  exact e

theorem getD_mem_index {α : Type} (l : List α) (d a : α) (h : a ∈ l) :
    ∃ i, i < l.length ∧ l.getD i d = a := by
  obtain ⟨i, hi, e⟩ := List.getElem_of_mem h
  refine ⟨i, hi, ?_⟩
  simp [List.getD_eq_getElem?_getD, List.getElem?_eq_getElem hi, e]

theorem getD_mem {α : Type} (l : List α) (d : α) (i : Nat) (h : i < l.length) :
    l.getD i d ∈ l := by
  simp [List.getD_eq_getElem?_getD, List.getElem?_eq_getElem h]

theorem find_foldl_assign (js : List b3JointInfo)
    (hd : (js.map (fun j => j.m_jointName)).Nodup) :
    ∀ j, j ∈ js →
      NameMap.find (js.foldl (fun m j => NameMap.assign m j.m_jointName j.m_jointIndex) [])
        j.m_jointName = some j.m_jointIndex := by
  induction js using List.reverseRecOn with
  | nil => intro j hj; simp at hj
  | append_singleton l a ih =>
    intro j hj
    rw [List.map_append, List.nodup_append] at hd
    obtain ⟨hl, _, hdisj⟩ := hd
    rw [List.foldl_append, List.foldl_cons, List.foldl_nil, NameMap.find_assign]
    rcases List.mem_append.mp hj with hjl | hja
    · have hne : ¬ a.m_jointName = j.m_jointName := by
        intro e
        have h1 : j.m_jointName ∈ l.map (fun j => j.m_jointName) :=
          List.mem_map_of_mem _ hjl
        have h2 : j.m_jointName ∈ [a].map (fun j => j.m_jointName) := by
          simp [e]
        exact hdisj h1 h2
      rw [if_neg hne]
      exact ih hl j hjl
    · have e : j = a := by simpa using hja
      subst e
      simp

theorem configure_true (sim : Sim) (heap : Heap) (s : State)
    (h : (configure sim heap s).1 = true) :
    sim.isConnected = true ∧ ¬ s.robot_id < 0 ∧ ¬ sim.getNumJoints s.robot_id ≤ 0
    ∧ configure sim heap s
        = (true, configureSetup sim heap s (sim.getNumJoints s.robot_id)) := by
  unfold configure at h ⊢
  by_cases h1 : sim.isConnected = true
  · by_cases h2 : s.robot_id < 0
    · simp [h1, h2] at h
    · by_cases h3 : sim.getNumJoints s.robot_id ≤ 0
      · simp [h1, h2, h3] at h
      · simp [h1, h2, h3]
  · simp [h1] at h

theorem setActiveKinematicChain_known (s : State) (jointNames : List String)
    (hlen : jointNames.length = s.vec_joint_indices.length)
    (hji : s.joint_indices.length = s.vec_joint_indices.length)
    (hall : ∀ nm, nm ∈ jointNames →
      ∃ v, NameMap.find s.map_joint_names_2_indices nm = some v) :
    setActiveKinematicChain s jointNames =
      (true, { s with
        vec_joint_indices := jointNames.map (NameMap.value s.map_joint_names_2_indices)
        joint_indices := jointNames.map (NameMap.value s.map_joint_names_2_indices) }) := by
  have hall2 : ∀ i, i < jointNames.length →
      ∃ v, NameMap.find s.map_joint_names_2_indices (jointNames.getD i "") = some v :=
    fun i hi => hall _ (getD_mem jointNames "" i hi)
  have hcheck : (List.range jointNames.length).all
      (fun i => NameMap.count s.map_joint_names_2_indices (jointNames.getD i "") != 0)
      = true := by
    rw [List.all_eq_true]
    intro i hi
    rw [NameMap.count_ne_zero]
    exact hall2 i (List.mem_range.mp hi)
  unfold setActiveKinematicChain
  rw [if_neg (by simpa using hlen), if_pos hcheck,
    chainLoop_known jointNames s jointNames.length (by omega) (by omega) hall2]
  have e1 : overwritten jointNames.length
      (fun i => NameMap.value s.map_joint_names_2_indices (jointNames.getD i ""))
      s.vec_joint_indices = jointNames.map (NameMap.value s.map_joint_names_2_indices) := by
    rw [hlen, overwritten_all, ← hlen]
    exact range_map_comp_getD jointNames "" _
  have e2 : overwritten jointNames.length
      (fun i => NameMap.value s.map_joint_names_2_indices (jointNames.getD i ""))
      s.joint_indices = jointNames.map (NameMap.value s.map_joint_names_2_indices) := by
    rw [hlen, ← hji, overwritten_all, hji, ← hlen]
    exact range_map_comp_getD jointNames "" _
  rw [e1, e2]

theorem setLoop_eq {α : Type} (n : Nat) (f : Nat → α) (l : List α) :
    forLoop n (fun i buf => buf.set i (f i)) l = overwritten (min n l.length) f l := by
  induction n with
  | zero => simp [forLoop_zero, overwritten_zero]
  | succ k ih =>
    rw [forLoop_succ, ih]
    by_cases hk : k < l.length
    · have e1 : min k l.length = k := by omega
      have e2 : min (k + 1) l.length = k + 1 := by omega
      rw [e1, e2]
      exact overwritten_set k f l hk
    · have e1 : min k l.length = l.length := by omega
      have e2 : min (k + 1) l.length = l.length := by omega
      rw [e1, e2]
      apply List.set_eq_of_length_le
      rw [overwritten_length _ _ _ (le_refl _)]
      omega

theorem overwritten_getD_lt {α : Type} (k : Nat) (f : Nat → α) (l : List α) (d : α)
    (i : Nat) (hi : i < k) : (overwritten k f l).getD i d = f i := by
  simp [overwritten, List.getD_eq_getElem?_getD, List.getElem?_append, List.getElem?_range, hi]

theorem setControlMode_idem (s : State) (m : String) :
    setControlMode (setControlMode s m) m = setControlMode s m := by
  unfold setControlMode
  by_cases h1 : m = "JointPositionCtrl"
  · simp [h1]
  · by_cases h2 : m = "JointTorqueCtrl"
    · simp [h2]
    · by_cases h3 : m = "JointGravComp"
      · simp [h3]
      · simp [h1, h2, h3]

theorem act_setupCalls_le_one (s : State) : setupCalls (act s).2 ≤ 1 := by
  unfold act actSwitch actSend
  cases h1 : s.requested_control_mode <;> cases h2 : s.active_control_mode <;>
    simp [setupCalls, releaseBrakesCall, pdSetupCall, torqueCall, h1, h2]

theorem readFromOrocos_cmd_pos (posPort trqPort : PortRead) (s : State) :
    (readFromOrocos posPort trqPort s).cmd_pos
      = if posPort.flow = FlowStatus.NoData then s.cmd_pos
        else overwritten (min (loopCount s.num_joints) s.cmd_pos.length)
          (fun i => posPort.sample.getD i 0) s.cmd_pos := by
  unfold readFromOrocos PortRead.read
  by_cases hp : posPort.flow = FlowStatus.NoData <;>
    by_cases ht : trqPort.flow = FlowStatus.NoData <;>
    simp [hp, ht, setLoop_eq]

theorem readFromOrocos_cmd_trq (posPort trqPort : PortRead) (s : State) :
    (readFromOrocos posPort trqPort s).cmd_trq
      = if trqPort.flow = FlowStatus.NoData then s.cmd_trq
        else overwritten (min (loopCount s.num_joints) s.cmd_trq.length)
          (fun i => trqPort.sample.getD i 0) s.cmd_trq := by
  unfold readFromOrocos PortRead.read
  by_cases hp : posPort.flow = FlowStatus.NoData <;>
    by_cases ht : trqPort.flow = FlowStatus.NoData <;>
    simp [hp, ht, setLoop_eq]

theorem configure_false (sim : Sim) (heap : Heap) (s : State)
    (h : (configure sim heap s).1 = false) :
    (sim.isConnected = false ∨ s.robot_id < 0 ∨ sim.getNumJoints s.robot_id ≤ 0)
    ∧ (configure sim heap s).2
        = if sim.isConnected = true ∧ ¬ s.robot_id < 0
          then { s with num_joints := -1 } else s := by
  unfold configure at h ⊢
  by_cases h1 : sim.isConnected = true
  · by_cases h2 : s.robot_id < 0
    · simp [h1, h2]
    · by_cases h3 : sim.getNumJoints s.robot_id ≤ 0
      · simp [h1, h2, h3]
      · simp [h1, h2, h3] at h
  · simp [h1]

theorem replicate_eq_range_map {α : Type} (n : Nat) (c : α) :
    (List.range n).map (fun _ => c) = List.replicate n c := by
  apply List.ext_getElem?
  intro i
  by_cases h : i < n
  · simp [List.getElem?_range, h, List.getElem?_replicate]
  · simp [h, List.getElem?_replicate]

theorem initLoop_zero_forces (s : State) (k : Nat) :
    (forLoop k initStep s).zero_forces
      = forLoop k (fun i buf => buf.set i 0) s.zero_forces := by
  induction k with
  | zero => rfl
  | succ k ih => rw [forLoop_succ, forLoop_succ, ← ih]; rfl

theorem configure_zero_forces (sim : Sim) (heap : Heap) (s : State)
    (h : (configure sim heap s).1 = true) :
    (configure sim heap s).2.zero_forces
      = List.replicate (loopCount (configure sim heap s).2.num_joints) 0 := by
  obtain ⟨_, _, _, hc⟩ := configure_true sim heap s h
  obtain ⟨_, _, c3, _⟩ := configureSetup_indices sim heap s (sim.getNumJoints s.robot_id)
  obtain ⟨_, _, a3, _⟩ := configureAlloc_indices sim heap s (sim.getNumJoints s.robot_id)
  rw [hc]
  simp only
  rw [c3]
  have hz : (configureSetup sim heap s (sim.getNumJoints s.robot_id)).zero_forces
      = (forLoop (loopCount (configureAlloc sim heap s (sim.getNumJoints s.robot_id)).num_joints)
          initStep (configureAlloc sim heap s (sim.getNumJoints s.robot_id))).zero_forces := by
    have hf := congrArg State.zero_forces
      (setControlMode_frame (configurePorts (forLoop
        (loopCount (configureAlloc sim heap s (sim.getNumJoints s.robot_id)).num_joints)
        initStep (configureAlloc sim heap s (sim.getNumJoints s.robot_id))))
        "JointPositionCtrl")
    exact hf
  rw [hz, initLoop_zero_forces, setLoop_eq, a3]
  have hl : (configureAlloc sim heap s (sim.getNumJoints s.robot_id)).zero_forces.length
      = (activeJoints sim s.robot_id (sim.getNumJoints s.robot_id).toNat).length := by
    have hd := discoverLoop_eq sim s.robot_id (sim.getNumJoints s.robot_id).toNat
    simp [configureAlloc, loopCount, hd, Heap.newDouble]
  have hn : loopCount
      ((activeJoints sim s.robot_id (sim.getNumJoints s.robot_id).toNat).length : Int)
      = (activeJoints sim s.robot_id (sim.getNumJoints s.robot_id).toNat).length := by
    simp [loopCount]
  rw [hn, ← hl, Nat.min_self, overwritten_all, replicate_eq_range_map]

theorem offsetLoop_eq {α : Type} (n off : Nat) (c : α) (l : List α)
    (h : off + n ≤ l.length) :
    forLoop n (fun j m => m.set (off + j) c) (overwritten off (fun _ => c) l)
      = overwritten (off + n) (fun _ => c) l := by
  induction n with
  | zero => rfl
  | succ k ih =>
    rw [forLoop_succ, ih (by omega)]
    exact overwritten_set (off + k) (fun _ => c) l (by omega)

theorem matrixLoop_eq {α : Type} (n k : Nat) (c : α) (l : List α)
    (hk : k ≤ n) (hl : l.length = n * n) :
    forLoop k (fun i m => forLoop n (fun j m => m.set (i * n + j) c) m) l
      = overwritten (k * n) (fun _ => c) l := by
  induction k with
  | zero => simp [forLoop_zero, overwritten_zero]
  | succ k ih =>
    have hb : k * n + n ≤ l.length := by
      rw [hl]
      calc k * n + n = (k + 1) * n := by ring
        _ ≤ n * n := Nat.mul_le_mul_right n hk
    rw [forLoop_succ, ih (by omega), offsetLoop_eq n (k * n) c l hb]
    congr 1
    ring

theorem fillLoop_eq {α : Type} (n : Nat) (c : α) (l : List α) (hl : l.length = n) :
    forLoop n (fun i buf => buf.set i c) l = List.replicate n c := by
  rw [setLoop_eq, hl, Nat.min_self, ← hl, overwritten_all, replicate_eq_range_map]

theorem fillMatrix_eq {α : Type} (n : Nat) (c : α) (l : List α) (hl : l.length = n * n) :
    forLoop n (fun i m => forLoop n (fun j m => m.set (i * n + j) c) m) l
      = List.replicate (n * n) c := by
  rw [matrixLoop_eq n n c l (le_refl n) hl, ← hl, overwritten_all, replicate_eq_range_map]

theorem initLoop_frame (s : State) (k : Nat) :
    (forLoop k initStep s).num_joints = s.num_joints
    ∧ (forLoop k initStep s).robot_id = s.robot_id
    ∧ (forLoop k initStep s).robot_name = s.robot_name
    ∧ (forLoop k initStep s).active_control_mode = s.active_control_mode
    ∧ (forLoop k initStep s).requested_control_mode = s.requested_control_mode
    ∧ (forLoop k initStep s).vec_joint_indices = s.vec_joint_indices
    ∧ (forLoop k initStep s).map_joint_names_2_indices = s.map_joint_names_2_indices := by
  induction k with
  | zero => simp [forLoop_zero]
  | succ k ih =>
    rw [forLoop_succ]
    exact ih

theorem initLoop_buffers (s : State) (k : Nat) :
    (forLoop k initStep s).zero_accelerations
      = forLoop k (fun i buf => buf.set i 0) s.zero_accelerations
    ∧ (forLoop k initStep s).max_forces
      = forLoop k (fun i buf => buf.set i 200) s.max_forces
    ∧ (forLoop k initStep s).target_positions
      = forLoop k (fun i buf => buf.set i 0) s.target_positions
    ∧ (forLoop k initStep s).q = forLoop k (fun i buf => buf.set i 0) s.q
    ∧ (forLoop k initStep s).qd = forLoop k (fun i buf => buf.set i 0) s.qd
    ∧ (forLoop k initStep s).gc = forLoop k (fun i buf => buf.set i 0) s.gc
    ∧ (forLoop k initStep s).cmd_trq = forLoop k (fun i buf => buf.set i 0) s.cmd_trq
    ∧ (forLoop k initStep s).cmd_pos = forLoop k (fun i buf => buf.set i 0) s.cmd_pos
    ∧ (forLoop k initStep s).M
      = forLoop k (fun i m => forLoop (loopCount s.num_joints)
          (fun j m => m.set (i * loopCount s.num_joints + j) 0) m) s.M := by
  induction k with
  | zero => simp [forLoop_zero]
  | succ k ih =>
    obtain ⟨h1, h2, h3, h4, h5, h6, h7, h8, h9⟩ := ih
    have hn := (initLoop_frame s k).1
    simp only [forLoop_succ]
    refine ⟨?_, ?_, ?_, ?_, ?_, ?_, ?_, ?_, ?_⟩
    · rw [← h1]; rfl
    · rw [← h2]; rfl
    · rw [← h3]; rfl
    · rw [← h4]; rfl
    · rw [← h5]; rfl
    · rw [← h6]; rfl
    · rw [← h7]; rfl
    · rw [← h8]; rfl
    · rw [← h9, ← hn]; rfl

theorem setControlMode_position (s : State) :
    setControlMode s "JointPositionCtrl"
      = { s with requested_control_mode := ControlModes.JointPosCtrl } := by
  simp [setControlMode]

theorem configureAlloc_lengths (sim : Sim) (heap : Heap) (s : State) (n : Int) :
    loopCount (configureAlloc sim heap s n).num_joints
      = (activeJoints sim s.robot_id n.toNat).length
    ∧ (configureAlloc sim heap s n).zero_forces.length
      = (activeJoints sim s.robot_id n.toNat).length
    ∧ (configureAlloc sim heap s n).zero_accelerations.length
      = (activeJoints sim s.robot_id n.toNat).length
    ∧ (configureAlloc sim heap s n).max_forces.length
      = (activeJoints sim s.robot_id n.toNat).length
    ∧ (configureAlloc sim heap s n).target_positions.length
      = (activeJoints sim s.robot_id n.toNat).length
    ∧ (configureAlloc sim heap s n).q.length = (activeJoints sim s.robot_id n.toNat).length
    ∧ (configureAlloc sim heap s n).qd.length = (activeJoints sim s.robot_id n.toNat).length
    ∧ (configureAlloc sim heap s n).gc.length = (activeJoints sim s.robot_id n.toNat).length
    ∧ (configureAlloc sim heap s n).cmd_trq.length
      = (activeJoints sim s.robot_id n.toNat).length
    ∧ (configureAlloc sim heap s n).cmd_pos.length
      = (activeJoints sim s.robot_id n.toNat).length
    ∧ (configureAlloc sim heap s n).M.length
      = (activeJoints sim s.robot_id n.toNat).length
        * (activeJoints sim s.robot_id n.toNat).length := by
  have hd := discoverLoop_eq sim s.robot_id n.toNat
  simp [configureAlloc, loopCount, hd, Heap.newDouble]

theorem configureSetup_buffers (sim : Sim) (heap : Heap) (s : State) (n : Int) :
    (configureSetup sim heap s n).zero_forces
      = List.replicate (activeJoints sim s.robot_id n.toNat).length 0
    ∧ (configureSetup sim heap s n).zero_accelerations
      = List.replicate (activeJoints sim s.robot_id n.toNat).length 0
    ∧ (configureSetup sim heap s n).max_forces
      = List.replicate (activeJoints sim s.robot_id n.toNat).length 200
    ∧ (configureSetup sim heap s n).target_positions
      = List.replicate (activeJoints sim s.robot_id n.toNat).length 0
    ∧ (configureSetup sim heap s n).q
      = List.replicate (activeJoints sim s.robot_id n.toNat).length 0
    ∧ (configureSetup sim heap s n).qd
      = List.replicate (activeJoints sim s.robot_id n.toNat).length 0
    ∧ (configureSetup sim heap s n).gc
      = List.replicate (activeJoints sim s.robot_id n.toNat).length 0
    ∧ (configureSetup sim heap s n).cmd_trq
      = List.replicate (activeJoints sim s.robot_id n.toNat).length 0
    ∧ (configureSetup sim heap s n).cmd_pos
      = List.replicate (activeJoints sim s.robot_id n.toNat).length 0
    ∧ (configureSetup sim heap s n).M
      = List.replicate ((activeJoints sim s.robot_id n.toNat).length
          * (activeJoints sim s.robot_id n.toNat).length) 0 := by
  obtain ⟨hn, l1, l2, l3, l4, l5, l6, l7, l8, l9, l10⟩ := configureAlloc_lengths sim heap s n
  obtain ⟨b2, b3, b4, b5, b6, b7, b8, b9, b10⟩ :=
    initLoop_buffers (configureAlloc sim heap s n)
      (loopCount (configureAlloc sim heap s n).num_joints)
  have b1 := initLoop_zero_forces (configureAlloc sim heap s n)
      (loopCount (configureAlloc sim heap s n).num_joints)
  simp only [configureSetup, setControlMode_position, configurePorts]
  rw [b1, b2, b3, b4, b5, b6, b7, b8, b9, b10, hn]
  exact ⟨fillLoop_eq _ 0 _ l1, fillLoop_eq _ 0 _ l2, fillLoop_eq _ 200 _ l3,
    fillLoop_eq _ 0 _ l4, fillLoop_eq _ 0 _ l5, fillLoop_eq _ 0 _ l6, fillLoop_eq _ 0 _ l7,
    fillLoop_eq _ 0 _ l8, fillLoop_eq _ 0 _ l9, fillMatrix_eq _ 0 _ l10⟩

theorem configureSetup_ports (sim : Sim) (heap : Heap) (s : State) (n : Int) :
    (configureSetup sim heap s n).in_JointPositionCtrl_cmd_var
      = List.replicate (activeJoints sim s.robot_id n.toNat).length 0
    ∧ (configureSetup sim heap s n).in_JointTorqueCtrl_cmd_var
      = List.replicate (activeJoints sim s.robot_id n.toNat).length 0
    ∧ (configureSetup sim heap s n).out_position_fdb_var
      = List.replicate (activeJoints sim s.robot_id n.toNat).length 0
    ∧ (configureSetup sim heap s n).out_velocities_fdb_var
      = List.replicate (activeJoints sim s.robot_id n.toNat).length 0
    ∧ (configureSetup sim heap s n).out_gc_fdb_var
      = List.replicate (activeJoints sim s.robot_id n.toNat).length 0
    ∧ (configureSetup sim heap s n).out_inertia_fdb_var
      = List.replicate ((activeJoints sim s.robot_id n.toNat).length
          * (activeJoints sim s.robot_id n.toNat).length) 0
    ∧ (configureSetup sim heap s n).in_JointPositionCtrl_cmd_flow = FlowStatus.NoData
    ∧ (configureSetup sim heap s n).in_JointTorqueCtrl_cmd_flow = FlowStatus.NoData := by
  have hn := (configureAlloc_lengths sim heap s n).1
  have hf := (initLoop_frame (configureAlloc sim heap s n)
      (loopCount (configureAlloc sim heap s n).num_joints)).1
  simp only [configureSetup, setControlMode_position, configurePorts]
  rw [hf, hn]
  simp

theorem configureSetup_modes (sim : Sim) (heap : Heap) (s : State) (n : Int) :
    (configureSetup sim heap s n).requested_control_mode = ControlModes.JointPosCtrl
    ∧ (configureSetup sim heap s n).active_control_mode = s.active_control_mode
    ∧ (configureSetup sim heap s n).robot_id = s.robot_id := by
  obtain ⟨_, h2, _, h4, _, _, _⟩ := initLoop_frame (configureAlloc sim heap s n)
      (loopCount (configureAlloc sim heap s n).num_joints)
  simp only [configureSetup, setControlMode_position, configurePorts]
  exact ⟨trivial, h4, h2⟩

theorem sense_frame (sim : Sim) (s : State) :
    (sense sim s).1.active_control_mode = s.active_control_mode
    ∧ (sense sim s).1.requested_control_mode = s.requested_control_mode
    ∧ (sense sim s).1.num_joints = s.num_joints
    ∧ (sense sim s).1.vec_joint_indices = s.vec_joint_indices
    ∧ (sense sim s).1.joint_indices = s.joint_indices
    ∧ (sense sim s).1.map_joint_names_2_indices = s.map_joint_names_2_indices := by
  have hl : ∀ (k : Nat) (t : List SimCall),
      (forLoop k (senseStep sim) (s, t)).1.active_control_mode = s.active_control_mode
      ∧ (forLoop k (senseStep sim) (s, t)).1.requested_control_mode
          = s.requested_control_mode
      ∧ (forLoop k (senseStep sim) (s, t)).1.num_joints = s.num_joints
      ∧ (forLoop k (senseStep sim) (s, t)).1.vec_joint_indices = s.vec_joint_indices
      ∧ (forLoop k (senseStep sim) (s, t)).1.joint_indices = s.joint_indices
      ∧ (forLoop k (senseStep sim) (s, t)).1.map_joint_names_2_indices
          = s.map_joint_names_2_indices := by
    intro k t
    induction k with
    | zero => simp [forLoop_zero]
    | succ k ih =>
      rw [forLoop_succ]
      exact ih
  exact hl (loopCount s.num_joints) []

theorem overwritten_full {α : Type} (k : Nat) (f : Nat → α) (l : List α)
    (h : l.length = k) : overwritten k f l = (List.range k).map f := by
  rw [← h, overwritten_all]

theorem setLoop_full {α : Type} (k : Nat) (f : Nat → α) (l : List α)
    (h : l.length = k) :
    forLoop k (fun i buf => buf.set i (f i)) l = (List.range k).map f := by
  rw [setLoop_eq, h, Nat.min_self, overwritten_full k f l h]

theorem chainLoop_frame (jointNames : List String) (s : State) (k : Nat) :
    (forLoop k (chainStep jointNames) s).active_control_mode = s.active_control_mode
    ∧ (forLoop k (chainStep jointNames) s).requested_control_mode = s.requested_control_mode
    ∧ (forLoop k (chainStep jointNames) s).num_joints = s.num_joints := by
  induction k with
  | zero => simp [forLoop_zero]
  | succ k ih =>
    rw [forLoop_succ]
    exact ih

theorem chainLoop_general (jointNames : List String) (s : State) (k : Nat)
    (hk : k ≤ s.vec_joint_indices.length)
    (hall : ∀ i, i < k →
      ∃ v, NameMap.find s.map_joint_names_2_indices (jointNames.getD i "") = some v) :
    (forLoop k (chainStep jointNames) s).map_joint_names_2_indices
        = s.map_joint_names_2_indices
    ∧ (forLoop k (chainStep jointNames) s).vec_joint_indices
        = overwritten k
            (fun i => NameMap.value s.map_joint_names_2_indices (jointNames.getD i ""))
            s.vec_joint_indices
    ∧ (forLoop k (chainStep jointNames) s).joint_indices
        = forLoop k
            (fun i buf => buf.set i
              (NameMap.value s.map_joint_names_2_indices (jointNames.getD i "")))
            s.joint_indices := by
  induction k with
  | zero => simp [forLoop_zero, overwritten_zero]
  | succ k ih =>
    obtain ⟨h1, h2, h3⟩ := ih (by omega) (fun i hi => hall i (by omega))
    obtain ⟨v, hv⟩ := hall k (by omega)
    have hval : NameMap.value s.map_joint_names_2_indices (jointNames.getD k "") = v := by
      unfold NameMap.value
      rw [hv]
      rfl
    have e1 := overwritten_set k
      (fun i => NameMap.value s.map_joint_names_2_indices (jointNames.getD i ""))
      s.vec_joint_indices (by omega)
    have e3 := overwritten_getD k
      (fun i => NameMap.value s.map_joint_names_2_indices (jointNames.getD i ""))
      s.vec_joint_indices 0
    simp only [hval] at e1 e3
    simp only [forLoop_succ]
    simp only [chainStep, h1, h2, h3, NameMap.index_of_find _ _ _ hv, e1, e3, hval]
    exact ⟨trivial, trivial, trivial⟩

theorem chainCheck_iff (m : NameMap) (jointNames : List String) :
    (List.range jointNames.length).all
        (fun i => NameMap.count m (jointNames.getD i "") != 0) = true
      ↔ ∀ nm, nm ∈ jointNames → ∃ v, NameMap.find m nm = some v := by
  rw [List.all_eq_true]
  constructor
  · intro h nm hnm
    obtain ⟨i, hi, e⟩ := getD_mem_index jointNames "" nm hnm
    have h1 := h i (List.mem_range.mpr hi)
    rw [NameMap.count_ne_zero, e] at h1
    exact h1
  · intro h i hi
    rw [NameMap.count_ne_zero]
    exact h _ (getD_mem jointNames "" i (List.mem_range.mp hi))

theorem setActiveKinematicChain_true_iff (s : State) (jointNames : List String) :
    (setActiveKinematicChain s jointNames).1 = true
      ↔ (jointNames.length = s.vec_joint_indices.length
        ∧ ∀ nm, nm ∈ jointNames →
          ∃ v, NameMap.find s.map_joint_names_2_indices nm = some v) := by
  unfold setActiveKinematicChain
  by_cases hlen : jointNames.length = s.vec_joint_indices.length
  · rw [if_neg (by simpa using hlen)]
    by_cases hc : (List.range jointNames.length).all
        (fun i => NameMap.count s.map_joint_names_2_indices (jointNames.getD i "") != 0)
        = true
    · rw [if_pos hc]
      simp only [true_iff]
      exact ⟨hlen, (chainCheck_iff _ _).mp hc⟩
    · rw [if_neg hc]
      constructor
      · intro h
        cases h
      · rintro ⟨_, h⟩
        exact absurd ((chainCheck_iff _ _).mpr h) hc
  · rw [if_pos hlen]
    constructor
    · intro h
      cases h
    · rintro ⟨h, _⟩
      exact absurd h hlen

theorem setActiveKinematicChain_success (s : State) (jointNames : List String)
    (h : (setActiveKinematicChain s jointNames).1 = true) :
    (setActiveKinematicChain s jointNames).2.map_joint_names_2_indices
        = s.map_joint_names_2_indices
    ∧ (setActiveKinematicChain s jointNames).2.vec_joint_indices
        = jointNames.map (NameMap.value s.map_joint_names_2_indices)
    ∧ (setActiveKinematicChain s jointNames).2.joint_indices
        = forLoop jointNames.length
            (fun i buf => buf.set i
              (NameMap.value s.map_joint_names_2_indices (jointNames.getD i "")))
            s.joint_indices
    ∧ (setActiveKinematicChain s jointNames).2.num_joints = s.num_joints := by
  obtain ⟨hlen, hall⟩ := (setActiveKinematicChain_true_iff s jointNames).mp h
  have hc := (chainCheck_iff s.map_joint_names_2_indices jointNames).mpr hall
  have hall2 : ∀ i, i < jointNames.length →
      ∃ v, NameMap.find s.map_joint_names_2_indices (jointNames.getD i "") = some v :=
    fun i hi => hall _ (getD_mem jointNames "" i hi)
  obtain ⟨g1, g2, g3⟩ := chainLoop_general jointNames s jointNames.length (by omega) hall2
  have g4 := (chainLoop_frame jointNames s jointNames.length).2.2
  unfold setActiveKinematicChain
  rw [if_neg (by simpa using hlen), if_pos hc]
  refine ⟨g1, ?_, g3, g4⟩
  simp only
  rw [g2, overwritten_full _ _ _ hlen.symm]
  exact range_map_comp_getD jointNames "" _

theorem setActiveKinematicChain_frame (s : State) (jointNames : List String) :
    (setActiveKinematicChain s jointNames).2.active_control_mode = s.active_control_mode
    ∧ (setActiveKinematicChain s jointNames).2.requested_control_mode
        = s.requested_control_mode
    ∧ (setActiveKinematicChain s jointNames).2.num_joints = s.num_joints := by
  have g := chainLoop_frame jointNames s jointNames.length
  unfold setActiveKinematicChain
  split
  · exact ⟨rfl, rfl, rfl⟩
  · split
    · exact g
    · exact ⟨rfl, rfl, rfl⟩

theorem readFromOrocos_frame (posPort trqPort : PortRead) (s : State) :
    (readFromOrocos posPort trqPort s).active_control_mode = s.active_control_mode
    ∧ (readFromOrocos posPort trqPort s).requested_control_mode = s.requested_control_mode
    ∧ (readFromOrocos posPort trqPort s).num_joints = s.num_joints
    ∧ (readFromOrocos posPort trqPort s).vec_joint_indices = s.vec_joint_indices
    ∧ (readFromOrocos posPort trqPort s).joint_indices = s.joint_indices
    ∧ (readFromOrocos posPort trqPort s).map_joint_names_2_indices
        = s.map_joint_names_2_indices := by
  unfold readFromOrocos PortRead.read
  by_cases hp : posPort.flow = FlowStatus.NoData <;>
    by_cases ht : trqPort.flow = FlowStatus.NoData <;>
    simp [hp, ht]

theorem act_state (s : State) :
    (act s).1 = { s with active_control_mode := s.requested_control_mode } := by
  unfold act actSwitch
  by_cases h : s.requested_control_mode = s.active_control_mode
  · rw [if_neg (by simpa using h)]
    cases s
    simp only at h
    simp only [h]
  · rw [if_pos h]

theorem configure_frame (sim : Sim) (heap : Heap) (s : State) :
    (configure sim heap s).2.active_control_mode = s.active_control_mode := by
  unfold configure
  by_cases h1 : sim.isConnected = true
  · by_cases h2 : s.robot_id < 0
    · simp [h1, h2]
    · by_cases h3 : sim.getNumJoints s.robot_id ≤ 0
      · simp [h1, h2, h3]
      · simp only [h1, h2, h3, if_true, if_false]
        exact (configureSetup_modes sim heap s (sim.getNumJoints s.robot_id)).2.1
  · simp [h1]

theorem act_position_switch (s : State)
    (hreq : s.requested_control_mode = ControlModes.JointPosCtrl)
    (hact : s.active_control_mode ≠ ControlModes.JointPosCtrl) :
    (act s).2 = [pdSetupCall s, torqueCall s s.cmd_pos] := by
  have hne : s.requested_control_mode ≠ s.active_control_mode := by
    rw [hreq]
    exact fun e => hact e.symm
  unfold act actSwitch
  rw [if_pos hne]
  simp [hreq, actSend, pdSetupCall, torqueCall]

theorem readFromOrocos_silent (posPort trqPort : PortRead) (s : State)
    (hp : posPort.flow = FlowStatus.NoData) (ht : trqPort.flow = FlowStatus.NoData) :
    readFromOrocos posPort trqPort s
      = { s with
          in_JointPositionCtrl_cmd_flow := FlowStatus.NoData
          in_JointTorqueCtrl_cmd_flow := FlowStatus.NoData } := by
  unfold readFromOrocos PortRead.read
  simp [hp, ht]

theorem setActiveKinematicChain_false (s : State) (jointNames : List String)
    (h : (setActiveKinematicChain s jointNames).1 = false) :
    (setActiveKinematicChain s jointNames).2 = s := by
  unfold setActiveKinematicChain at h ⊢
  split
  · rfl
  · split
    · rename_i h1 h2
      rw [if_neg h1, if_pos h2] at h
      cases h
    · rfl

theorem applyCall_indices (c : Call) (s : State)
    (h1 : (s.vec_joint_indices.length : Int) = s.num_joints)
    (h2 : s.joint_indices = s.vec_joint_indices) :
    ((applyCall c s).vec_joint_indices.length : Int) = (applyCall c s).num_joints
    ∧ (applyCall c s).joint_indices = (applyCall c s).vec_joint_indices := by
  cases c with
  | setActiveKinematicChain jointNames =>
    simp only [applyCall]
    cases hr : (setActiveKinematicChain s jointNames).1 with
    | false =>
      rw [setActiveKinematicChain_false s jointNames hr]
      exact ⟨h1, h2⟩
    | true =>
      obtain ⟨hlen, _⟩ := (setActiveKinematicChain_true_iff s jointNames).mp hr
      obtain ⟨_, g2, g3, g4⟩ := setActiveKinematicChain_success s jointNames hr
      have hji : s.joint_indices.length = jointNames.length := by rw [h2, hlen]
      rw [g2, g3, g4, setLoop_full _ _ _ hji, range_map_comp_getD jointNames "" _]
      refine ⟨?_, rfl⟩
      rw [List.length_map, hlen]
      exact h1
  | setControlMode controlMode =>
    simp only [applyCall]
    have hf := setControlMode_frame s controlMode
    have e1 : (setControlMode s controlMode).vec_joint_indices = s.vec_joint_indices := by
      have h := congrArg State.vec_joint_indices hf
      exact h
    have e2 : (setControlMode s controlMode).joint_indices = s.joint_indices := by
      have h := congrArg State.joint_indices hf
      exact h
    have e3 : (setControlMode s controlMode).num_joints = s.num_joints := by
      have h := congrArg State.num_joints hf
      exact h
    rw [e1, e2, e3]
    exact ⟨h1, h2⟩
  | readFromOrocos posPort trqPort =>
    simp only [applyCall]
    obtain ⟨_, _, e3, e1, e2, _⟩ := readFromOrocos_frame posPort trqPort s
    rw [e1, e2, e3]
    exact ⟨h1, h2⟩
  | sense sim =>
    simp only [applyCall]
    obtain ⟨_, _, e3, e1, e2, _⟩ := sense_frame sim s
    rw [e1, e2, e3]
    exact ⟨h1, h2⟩
  | act =>
    simp only [applyCall, act_state]
    exact ⟨h1, h2⟩
  | writeToOrocos =>
    simp only [applyCall, writeToOrocos]
    exact ⟨h1, h2⟩

theorem runCalls_indices (calls : List Call) (s : State)
    (h1 : (s.vec_joint_indices.length : Int) = s.num_joints)
    (h2 : s.joint_indices = s.vec_joint_indices) :
    ((runCalls calls s).vec_joint_indices.length : Int) = (runCalls calls s).num_joints
    ∧ (runCalls calls s).joint_indices = (runCalls calls s).vec_joint_indices := by
  induction calls generalizing s with
  | nil => exact ⟨h1, h2⟩
  | cons c cs ih =>
    obtain ⟨g1, g2⟩ := applyCall_indices c s h1 h2
    exact ih (applyCall c s) g1 g2

theorem act_calls_ignore_flows (s : State) (f1 f2 : FlowStatus) :
    (act { s with
        in_JointPositionCtrl_cmd_flow := f1
        in_JointTorqueCtrl_cmd_flow := f2 }).2 = (act s).2 := by
  unfold act actSwitch actSend
  cases h1 : s.requested_control_mode <;> cases h2 : s.active_control_mode <;>
    simp [h1, h2, releaseBrakesCall, pdSetupCall, torqueCall]

theorem chainLoop_zero_forces (jointNames : List String) (s : State) (k : Nat) :
    (forLoop k (chainStep jointNames) s).zero_forces = s.zero_forces := by
  induction k with
  | zero => rfl
  | succ k ih =>
    rw [forLoop_succ]
    exact ih

theorem setActiveKinematicChain_zero_forces (s : State) (jointNames : List String) :
    (setActiveKinematicChain s jointNames).2.zero_forces = s.zero_forces := by
  have g := chainLoop_zero_forces jointNames s jointNames.length
  unfold setActiveKinematicChain
  split
  · rfl
  · split
    · exact g
    · rfl

theorem readFromOrocos_zero_forces (posPort trqPort : PortRead) (s : State) :
    (readFromOrocos posPort trqPort s).zero_forces = s.zero_forces := by
  unfold readFromOrocos PortRead.read
  by_cases hp : posPort.flow = FlowStatus.NoData <;>
    by_cases ht : trqPort.flow = FlowStatus.NoData <;>
    simp [hp, ht]

theorem sense_zero_forces (sim : Sim) (s : State) :
    (sense sim s).1.zero_forces = s.zero_forces := by
  have hl : ∀ (k : Nat) (t : List SimCall),
      (forLoop k (senseStep sim) (s, t)).1.zero_forces = s.zero_forces := by
    intro k t
    induction k with
    | zero => rfl
    | succ k ih =>
      rw [forLoop_succ]
      exact ih
  exact hl (loopCount s.num_joints) []

theorem applyCall_zero_forces (c : Call) (s : State) :
    (applyCall c s).zero_forces = s.zero_forces
    ∧ (applyCall c s).num_joints = s.num_joints := by
  cases c with
  | setActiveKinematicChain jointNames =>
    exact ⟨setActiveKinematicChain_zero_forces s jointNames,
      (setActiveKinematicChain_frame s jointNames).2.2⟩
  | setControlMode controlMode =>
    have hf := setControlMode_frame s controlMode
    have e1 : (setControlMode s controlMode).zero_forces = s.zero_forces := by
      have h := congrArg State.zero_forces hf
      exact h
    have e2 : (setControlMode s controlMode).num_joints = s.num_joints := by
      have h := congrArg State.num_joints hf
      exact h
    exact ⟨e1, e2⟩
  | readFromOrocos posPort trqPort =>
    exact ⟨readFromOrocos_zero_forces posPort trqPort s,
      (readFromOrocos_frame posPort trqPort s).2.2.1⟩
  | sense sim =>
    exact ⟨sense_zero_forces sim s, (sense_frame sim s).2.2.1⟩
  | act =>
    simp only [applyCall, act_state]
    exact ⟨trivial, trivial⟩
  | writeToOrocos =>
    exact ⟨rfl, rfl⟩

theorem runCalls_zero_forces (calls : List Call) (s : State) :
    (runCalls calls s).zero_forces = s.zero_forces
    ∧ (runCalls calls s).num_joints = s.num_joints := by
  induction calls generalizing s with
  | nil => exact ⟨rfl, rfl⟩
  | cons c cs ih =>
    obtain ⟨g1, g2⟩ := applyCall_zero_forces c s
    obtain ⟨i1, i2⟩ := ih (applyCall c s)
    exact ⟨i1.trans g1, i2.trans g2⟩

theorem configured_zero_forces (sim : Sim) (heap : Heap) (s0 : State) (calls : List Call)
    (h : (configure sim heap s0).1 = true) :
    (runCalls calls (configure sim heap s0).2).zero_forces
      = List.replicate (loopCount (runCalls calls (configure sim heap s0).2).num_joints) 0 := by
  obtain ⟨g1, g2⟩ := runCalls_zero_forces calls (configure sim heap s0).2
  rw [g1, g2]
  exact configure_zero_forces sim heap s0 h

theorem configured_num_joints_nonneg (sim : Sim) (heap : Heap) (s0 : State)
    (calls : List Call) (h : (configure sim heap s0).1 = true) :
    0 ≤ (runCalls calls (configure sim heap s0).2).num_joints := by
  obtain ⟨_, _, _, hc⟩ := configure_true sim heap s0 h
  obtain ⟨_, _, c3, _⟩ := configureSetup_indices sim heap s0 (sim.getNumJoints s0.robot_id)
  rw [(runCalls_zero_forces calls (configure sim heap s0).2).2, hc]
  simp only
  rw [c3]
  exact Int.natCast_nonneg _

theorem configure_true_iff (sim : Sim) (heap : Heap) (s : State) :
    (configure sim heap s).1 = true
      ↔ (sim.isConnected = true ∧ 0 ≤ s.robot_id ∧ 1 ≤ sim.getNumJoints s.robot_id) := by
  constructor
  · intro h
    obtain ⟨h1, h2, h3, _⟩ := configure_true sim heap s h
    exact ⟨h1, by omega, by omega⟩
  · rintro ⟨h1, h2, h3⟩
    have h2n : ¬ s.robot_id < 0 := by omega
    have h3n : ¬ sim.getNumJoints s.robot_id ≤ 0 := by omega
    unfold configure
    simp [h1, h2n, h3n]

/-! ## The claims -/

/-- C1: for every state (configured or not) and every list of joint names whose
length differs from the number of active joints (the size of
`vec_joint_indices`, which `configure` makes equal to `num_joints`) or that
contains a name absent from the name-to-index mapping,
`setActiveKinematicChain` returns false and the whole state is exactly the
state before the call. -/
theorem setActiveKinematicChain_invalid_unchanged (s : State) (jointNames : List String)
    (h : jointNames.length ≠ s.vec_joint_indices.length
      ∨ ∃ nm, nm ∈ jointNames ∧ NameMap.find s.map_joint_names_2_indices nm = none) :
    setActiveKinematicChain s jointNames = (false, s) := by
  unfold setActiveKinematicChain
  by_cases hlen : jointNames.length = s.vec_joint_indices.length
  · rcases h with h | ⟨nm, hmem, hfind⟩
    · exact absurd hlen h
    · obtain ⟨i, hi, e⟩ := getD_mem_index jointNames "" nm hmem
      have hcheck : ¬ (List.range jointNames.length).all
          (fun i => NameMap.count s.map_joint_names_2_indices (jointNames.getD i "") != 0)
          = true := by
        rw [List.all_eq_true]
        intro hall
        have h1 := hall i (List.mem_range.mpr hi)
        rw [NameMap.count_ne_zero, e, hfind] at h1
        obtain ⟨v, hv⟩ := h1
        cases hv
      rw [if_neg (by simpa using hlen), if_neg hcheck]
  · rw [if_pos hlen]

/-- Instance of C1 on the configured demo robot: a list of the right length
with the unknown name "wrist" is rejected and nothing changes. -/
theorem setActiveKinematicChain_invalid_unchanged_witness :
    (["shoulder", "wrist"].length ≠ demoState.vec_joint_indices.length
      ∨ ∃ nm, nm ∈ ["shoulder", "wrist"]
          ∧ NameMap.find demoState.map_joint_names_2_indices nm = none)
    ∧ demoState.vec_joint_indices = [0, 2]
    ∧ setActiveKinematicChain demoState ["shoulder", "wrist"] = (false, demoState) :=
  ⟨Or.inr ⟨"wrist", by decide, by decide⟩, by decide,
    setActiveKinematicChain_invalid_unchanged demoState ["shoulder", "wrist"]
      (Or.inr ⟨"wrist", by decide, by decide⟩)⟩

/-- C2: after a successful `configure` in which the active joints have pairwise
distinct names, for every list of names that is a permutation of the active
joint names, `setActiveKinematicChain` returns true, the active index sequence
(both `vec_joint_indices` and `joint_indices`) lists at each position the index
the mapping holds for the name at that position, that index is the simulator
index of the joint of that name, and the new sequence is a permutation of the
sequence `configure` left. -/
theorem setActiveKinematicChain_permutation (sim : Sim) (heap : Heap) (s0 : State)
    (jointNames : List String)
    (hcfg : (configure sim heap s0).1 = true)
    (hdist : ((activeJoints sim s0.robot_id (sim.getNumJoints s0.robot_id).toNat).map
      (fun j => j.m_jointName)).Nodup)
    (hperm : List.Perm jointNames
      ((activeJoints sim s0.robot_id (sim.getNumJoints s0.robot_id).toNat).map
        (fun j => j.m_jointName))) :
    (setActiveKinematicChain (configure sim heap s0).2 jointNames).1 = true
    ∧ (setActiveKinematicChain (configure sim heap s0).2 jointNames).2.vec_joint_indices
        = jointNames.map (NameMap.value (configure sim heap s0).2.map_joint_names_2_indices)
    ∧ (setActiveKinematicChain (configure sim heap s0).2 jointNames).2.joint_indices
        = jointNames.map (NameMap.value (configure sim heap s0).2.map_joint_names_2_indices)
    ∧ (∀ j, j ∈ activeJoints sim s0.robot_id (sim.getNumJoints s0.robot_id).toNat →
        NameMap.value (configure sim heap s0).2.map_joint_names_2_indices j.m_jointName
          = j.m_jointIndex)
    ∧ List.Perm
        (setActiveKinematicChain (configure sim heap s0).2 jointNames).2.vec_joint_indices
        (configure sim heap s0).2.vec_joint_indices := by
  obtain ⟨_, _, _, hc⟩ := configure_true sim heap s0 hcfg
  obtain ⟨c1, c2, _, c4⟩ :=
    configureSetup_indices sim heap s0 (sim.getNumJoints s0.robot_id)
  rw [hc]
  simp only
  generalize configureSetup sim heap s0 (sim.getNumJoints s0.robot_id) = c at c1 c2 c4
  generalize activeJoints sim s0.robot_id (sim.getNumJoints s0.robot_id).toNat = A
    at hdist hperm c1 c2 c4
  have hfind := find_foldl_assign A hdist
  rw [← c2] at hfind
  have hval : ∀ j, j ∈ A →
      NameMap.value c.map_joint_names_2_indices j.m_jointName = j.m_jointIndex := by
    intro j hj
    simp [NameMap.value, hfind j hj]
  have hall : ∀ nm, nm ∈ jointNames →
      ∃ v, NameMap.find c.map_joint_names_2_indices nm = some v := by
    intro nm hnm
    obtain ⟨j, hj, e⟩ := List.mem_map.mp (hperm.subset hnm)
    exact ⟨j.m_jointIndex, e ▸ hfind j hj⟩
  have hlen : jointNames.length = c.vec_joint_indices.length := by
    rw [c1, hperm.length_eq]
    simp
  have hji : c.joint_indices.length = c.vec_joint_indices.length := by rw [c1, c4]
  rw [setActiveKinematicChain_known c jointNames hlen hji hall]
  refine ⟨rfl, rfl, rfl, hval, ?_⟩
  simp only
  have hp := hperm.map (NameMap.value c.map_joint_names_2_indices)
  rw [List.map_map] at hp
  have hm : A.map (NameMap.value c.map_joint_names_2_indices ∘ fun j => j.m_jointName)
      = A.map (fun j => j.m_jointIndex) :=
    List.map_congr_left (fun j hj => hval j hj)
  rw [hm, ← c1] at hp
  exact hp

/-- Instance of C2 on the demo robot: the two active joints are requested in
reverse order, and the index sequence becomes 2, 0. -/
theorem setActiveKinematicChain_permutation_witness :
    ((configure demoSim demoHeap demoInit).1 = true
      ∧ (activeJoints demoSim demoInit.robot_id
          (demoSim.getNumJoints demoInit.robot_id).toNat).map (fun j => j.m_jointName)
        = ["shoulder", "elbow"]
      ∧ (configure demoSim demoHeap demoInit).2.vec_joint_indices = [0, 2]
      ∧ (setActiveKinematicChain (configure demoSim demoHeap demoInit).2
          ["elbow", "shoulder"]).2.vec_joint_indices = [2, 0])
    ∧ ((setActiveKinematicChain (configure demoSim demoHeap demoInit).2
          ["elbow", "shoulder"]).1 = true
      ∧ (setActiveKinematicChain (configure demoSim demoHeap demoInit).2
          ["elbow", "shoulder"]).2.vec_joint_indices
        = ["elbow", "shoulder"].map
            (NameMap.value (configure demoSim demoHeap demoInit).2.map_joint_names_2_indices)
      ∧ (setActiveKinematicChain (configure demoSim demoHeap demoInit).2
          ["elbow", "shoulder"]).2.joint_indices
        = ["elbow", "shoulder"].map
            (NameMap.value (configure demoSim demoHeap demoInit).2.map_joint_names_2_indices)
      ∧ (∀ j, j ∈ activeJoints demoSim demoInit.robot_id
            (demoSim.getNumJoints demoInit.robot_id).toNat →
          NameMap.value (configure demoSim demoHeap demoInit).2.map_joint_names_2_indices
            j.m_jointName = j.m_jointIndex)
      ∧ List.Perm
          (setActiveKinematicChain (configure demoSim demoHeap demoInit).2
            ["elbow", "shoulder"]).2.vec_joint_indices
          (configure demoSim demoHeap demoInit).2.vec_joint_indices) :=
  ⟨⟨by decide, by decide, by decide, by decide⟩,
    setActiveKinematicChain_permutation demoSim demoHeap demoInit ["elbow", "shoulder"]
      (by decide) (by decide) (by decide)⟩

/-- C3: when the requested mode equals the active mode, `act` changes nothing
in the state (so the active mode is unchanged) and issues exactly one simulator
call, a torque-mode array write over `joint_indices`, whose force array is the
gravity/Coriolis vector in JointGravComp, the position-command buffer in
JointPosCtrl and the torque-command buffer in JointTrqCtrl; no mode-setup call
is made. -/
theorem act_no_transition (s : State)
    (h : s.requested_control_mode = s.active_control_mode) :
    (act s).1 = s
    ∧ (act s).2 =
        [SimCall.setJointMotorControlArray s.robot_id
          { m_controlMode := b3ControlMode.CONTROL_MODE_TORQUE
            m_numControlledDofs := s.num_joints
            m_jointIndices := some s.joint_indices
            m_forces := some
              (match s.active_control_mode with
                | ControlModes.JointGravComp => s.gc
                | ControlModes.JointPosCtrl => s.cmd_pos
                | ControlModes.JointTrqCtrl => s.cmd_trq) }]
    ∧ setupCalls (act s).2 = 0 := by
  have hsw : actSwitch s = (s, []) := by
    unfold actSwitch
    rw [if_neg (by simpa using h)]
  unfold act
  rw [hsw]
  cases hm : s.active_control_mode <;>
    simp [actSend, hm, torqueCall, setupCalls]

/-- Instance of C3 given in the specification: active = requested =
JointGravComp with gravity vector 1, 2 gives a single torque-mode call with
forces 1, 2. -/
theorem act_no_transition_witness :
    gravState.requested_control_mode = gravState.active_control_mode
    ∧ gravState.gc = [1, 2]
    ∧ (act gravState).1 = gravState
    ∧ (act gravState).2 =
        [SimCall.setJointMotorControlArray 0
          { m_controlMode := b3ControlMode.CONTROL_MODE_TORQUE
            m_numControlledDofs := 2
            m_jointIndices := some [0, 2]
            m_forces := some [1, 2] }]
    ∧ setupCalls (act gravState).2 = 0 :=
  ⟨by decide, by decide, act_no_transition gravState (by decide)⟩

/-- C4: when JointPosCtrl is requested and another mode is active, `act`
issues exactly two simulator calls in this order: the position-velocity-PD
configuration over `joint_indices` carrying the max-force array and the
target-position array, then a torque-mode array write whose force array is the
position-command buffer; afterwards JointPosCtrl is active and nothing else in
the state has changed. -/
theorem act_switch_to_position (s : State)
    (hreq : s.requested_control_mode = ControlModes.JointPosCtrl)
    (hact : s.active_control_mode ≠ ControlModes.JointPosCtrl) :
    (act s).2 =
        [SimCall.setJointMotorControlArray s.robot_id
          { m_controlMode := b3ControlMode.CONTROL_MODE_POSITION_VELOCITY_PD
            m_numControlledDofs := s.num_joints
            m_jointIndices := some s.joint_indices
            m_forces := some s.max_forces
            m_targetPositions := some s.target_positions },
         SimCall.setJointMotorControlArray s.robot_id
          { m_controlMode := b3ControlMode.CONTROL_MODE_TORQUE
            m_numControlledDofs := s.num_joints
            m_jointIndices := some s.joint_indices
            m_forces := some s.cmd_pos }]
    ∧ (act s).1 = { s with active_control_mode := ControlModes.JointPosCtrl } := by
  have hne : s.requested_control_mode ≠ s.active_control_mode := by
    rw [hreq]
    exact fun e => hact e.symm
  have hsw : actSwitch s
      = ({ s with active_control_mode := ControlModes.JointPosCtrl }, [pdSetupCall s]) := by
    unfold actSwitch
    rw [if_pos hne]
    simp [hreq]
  unfold act
  rw [hsw]
  simp [actSend, pdSetupCall, torqueCall]

/-- Instance of C4 given in the specification: active = JointGravComp,
requested = JointPosCtrl, two joints. -/
theorem act_switch_to_position_witness :
    (gravToPosState.requested_control_mode = ControlModes.JointPosCtrl
      ∧ gravToPosState.active_control_mode = ControlModes.JointGravComp
      ∧ gravToPosState.num_joints = 2)
    ∧ (act gravToPosState).2 =
        [SimCall.setJointMotorControlArray 0
          { m_controlMode := b3ControlMode.CONTROL_MODE_POSITION_VELOCITY_PD
            m_numControlledDofs := 2
            m_jointIndices := some [0, 2]
            m_forces := some [200, 200]
            m_targetPositions := some [0, 0] },
         SimCall.setJointMotorControlArray 0
          { m_controlMode := b3ControlMode.CONTROL_MODE_TORQUE
            m_numControlledDofs := 2
            m_jointIndices := some [0, 2]
            m_forces := some [3, 4] }]
    ∧ (act gravToPosState).1
        = { gravToPosState with active_control_mode := ControlModes.JointPosCtrl } :=
  ⟨by decide, act_switch_to_position gravToPosState (by decide) (by decide)⟩

/-- C5: the brake-release guard of line 132 holds for every active mode, and
whenever JointTrqCtrl or JointGravComp is requested and differs from the
active mode (also for a switch between these two), `act` issues exactly two
simulator calls: first the release-brakes call (velocity mode over
`joint_indices` carrying the zero-force buffer), then the torque-mode write of
the cycle (gravity vector for JointGravComp, torque-command buffer for
JointTrqCtrl); afterwards the active mode is the requested one and nothing else
has changed. In every state reached from a successful `configure` by any
sequence of member-function calls the zero-force buffer is `num_joints` zeros,
so the release-brakes call carries the all-zero force array. -/
theorem act_release_brakes (s : State)
    (hreq : s.requested_control_mode = ControlModes.JointTrqCtrl
      ∨ s.requested_control_mode = ControlModes.JointGravComp)
    (hne : s.requested_control_mode ≠ s.active_control_mode) :
    (s.active_control_mode ≠ ControlModes.JointTrqCtrl
      ∨ s.active_control_mode ≠ ControlModes.JointGravComp)
    ∧ (act s).2 =
        [SimCall.setJointMotorControlArray s.robot_id
          { m_controlMode := b3ControlMode.CONTROL_MODE_VELOCITY
            m_numControlledDofs := s.num_joints
            m_jointIndices := some s.joint_indices
            m_forces := some s.zero_forces },
         SimCall.setJointMotorControlArray s.robot_id
          { m_controlMode := b3ControlMode.CONTROL_MODE_TORQUE
            m_numControlledDofs := s.num_joints
            m_jointIndices := some s.joint_indices
            m_forces := some
              (if s.requested_control_mode = ControlModes.JointGravComp
                then s.gc else s.cmd_trq) }]
    ∧ setupCalls (act s).2 = 1
    ∧ (act s).1 = { s with active_control_mode := s.requested_control_mode }
    ∧ (∀ (sim : Sim) (heap : Heap) (s0 : State) (calls : List Call),
        (configure sim heap s0).1 = true →
        s = runCalls calls (configure sim heap s0).2 →
        s.zero_forces = List.replicate (loopCount s.num_joints) 0
        ∧ (act s).2 =
          [SimCall.setJointMotorControlArray s.robot_id
            { m_controlMode := b3ControlMode.CONTROL_MODE_VELOCITY
              m_numControlledDofs := s.num_joints
              m_jointIndices := some s.joint_indices
              m_forces := some (List.replicate (loopCount s.num_joints) 0) },
           SimCall.setJointMotorControlArray s.robot_id
            { m_controlMode := b3ControlMode.CONTROL_MODE_TORQUE
              m_numControlledDofs := s.num_joints
              m_jointIndices := some s.joint_indices
              m_forces := some
                (if s.requested_control_mode = ControlModes.JointGravComp
                  then s.gc else s.cmd_trq) }]) := by
  have hguard : s.active_control_mode ≠ ControlModes.JointTrqCtrl
      ∨ s.active_control_mode ≠ ControlModes.JointGravComp := by
    cases s.active_control_mode <;> simp
  have hsw : actSwitch s
      = ({ s with active_control_mode := s.requested_control_mode },
          [releaseBrakesCall s]) := by
    unfold actSwitch
    rw [if_pos hne, if_pos hreq, if_pos hguard]
  have hcalls : (act s).2 =
      [SimCall.setJointMotorControlArray s.robot_id
        { m_controlMode := b3ControlMode.CONTROL_MODE_VELOCITY
          m_numControlledDofs := s.num_joints
          m_jointIndices := some s.joint_indices
          m_forces := some s.zero_forces },
       SimCall.setJointMotorControlArray s.robot_id
        { m_controlMode := b3ControlMode.CONTROL_MODE_TORQUE
          m_numControlledDofs := s.num_joints
          m_jointIndices := some s.joint_indices
          m_forces := some
            (if s.requested_control_mode = ControlModes.JointGravComp
              then s.gc else s.cmd_trq) }] := by
    unfold act
    rw [hsw]
    rcases hreq with h | h <;>
      simp [actSend, h, releaseBrakesCall, torqueCall]
  refine ⟨hguard, hcalls, ?_, ?_, ?_⟩
  · unfold act
    rw [hsw]
    rcases hreq with h | h <;>
      simp [actSend, h, releaseBrakesCall, torqueCall, setupCalls]
  · unfold act
    rw [hsw]
  · intro sim heap s0 calls hcfg hs
    have hz : s.zero_forces = List.replicate (loopCount s.num_joints) 0 := by
      rw [hs]
      exact configured_zero_forces sim heap s0 calls hcfg
    refine ⟨hz, ?_⟩
    rw [hcalls, hz]

/-- Instance of C5: the configured demo robot is brought into gravity
compensation and torque control is then requested (a switch between the two
torque-related modes); `act` releases the brakes with forces 0, 0 and then
writes the torque command 0, 0. The opposite switch, from torque control to
gravity compensation, releases the brakes as well and writes the gravity
vector 1, 2. -/
theorem act_release_brakes_witness :
    ((act trqToGravState).2 =
        [SimCall.setJointMotorControlArray 0
          { m_controlMode := b3ControlMode.CONTROL_MODE_VELOCITY
            m_numControlledDofs := 2
            m_jointIndices := some [0, 2]
            m_forces := some [0, 0] },
         SimCall.setJointMotorControlArray 0
          { m_controlMode := b3ControlMode.CONTROL_MODE_TORQUE
            m_numControlledDofs := 2
            m_jointIndices := some [0, 2]
            m_forces := some [1, 2] }]
      ∧ (configure demoSim demoHeap demoInit).1 = true
      ∧ (runCalls toTorqueCalls (configure demoSim demoHeap demoInit).2).active_control_mode
          = ControlModes.JointGravComp
      ∧ (runCalls toTorqueCalls
          (configure demoSim demoHeap demoInit).2).requested_control_mode
          = ControlModes.JointTrqCtrl
      ∧ (act (runCalls toTorqueCalls (configure demoSim demoHeap demoInit).2)).2 =
        [SimCall.setJointMotorControlArray 0
          { m_controlMode := b3ControlMode.CONTROL_MODE_VELOCITY
            m_numControlledDofs := 2
            m_jointIndices := some [0, 2]
            m_forces := some [0, 0] },
         SimCall.setJointMotorControlArray 0
          { m_controlMode := b3ControlMode.CONTROL_MODE_TORQUE
            m_numControlledDofs := 2
            m_jointIndices := some [0, 2]
            m_forces := some [0, 0] }])
    ∧ (runCalls toTorqueCalls (configure demoSim demoHeap demoInit).2).zero_forces
        = List.replicate
            (loopCount (runCalls toTorqueCalls
              (configure demoSim demoHeap demoInit).2).num_joints) 0 :=
  ⟨by decide,
    ((act_release_brakes (runCalls toTorqueCalls (configure demoSim demoHeap demoInit).2)
      (Or.inl (by decide)) (by decide)).2.2.2.2
      demoSim demoHeap demoInit toTorqueCalls (by decide) rfl).1⟩

/-- C6: for every state, every mode name `m` (recognised or not) and every
`n ≥ 1`, calling `setControlMode m` `n` times gives the same state as calling
it once, and the `act` that runs next issues at most one mode-setup call
(release-brakes or PD setup). -/
theorem setControlMode_idempotent (s : State) (m : String) (n : Nat) (hn : 1 ≤ n) :
    Nat.iterate (fun t => setControlMode t m) n s = setControlMode s m
    ∧ setupCalls (act (Nat.iterate (fun t => setControlMode t m) n s)).2 ≤ 1 := by
  refine ⟨?_, act_setupCalls_le_one _⟩
  induction n with
  | zero => omega
  | succ k ih =>
    rw [Function.iterate_succ_apply']
    by_cases hk : k = 0
    · subst hk
      rfl
    · rw [ih (by omega), setControlMode_idem]

/-- Instance of C6: three calls with "JointTorqueCtrl" on the demo robot (in
gravity compensation) equal one call, and the next `act` makes exactly one
mode-setup call. -/
theorem setControlMode_idempotent_witness :
    (1 ≤ 3
      ∧ setupCalls (act (setControlMode (setControlMode (setControlMode gravState
          "JointTorqueCtrl") "JointTorqueCtrl") "JointTorqueCtrl")).2 = 1)
    ∧ (Nat.iterate (fun t => setControlMode t "JointTorqueCtrl") 3 gravState
        = setControlMode gravState "JointTorqueCtrl"
      ∧ setupCalls (act (Nat.iterate (fun t => setControlMode t "JointTorqueCtrl") 3
          gravState)).2 ≤ 1) :=
  ⟨⟨by decide, by decide⟩, setControlMode_idempotent gravState "JointTorqueCtrl" 3 (by decide)⟩

/-- C7: in a state with `num_joints ≥ 0` whose two command buffers have
`num_joints` entries, and for port reads whose received vector (when there is
one) has `num_joints` entries, `readFromOrocos` treats the two channels
separately: when a port reports `NoData` its command buffer is exactly its
prior value, otherwise the buffer keeps its `num_joints` entries and every
entry `i` is overwritten with entry `i` of the received vector, so the buffer
equals the received vector. The position buffer is the same whatever the
torque port delivers, and the torque buffer is the same whatever the position
port delivers. -/
theorem readFromOrocos_channels (posPort trqPort other : PortRead) (s : State)
    (hn : 0 ≤ s.num_joints)
    (hpos : s.cmd_pos.length = loopCount s.num_joints)
    (htrq : s.cmd_trq.length = loopCount s.num_joints)
    (hp : posPort.flow ≠ FlowStatus.NoData →
      posPort.sample.length = loopCount s.num_joints)
    (ht : trqPort.flow ≠ FlowStatus.NoData →
      trqPort.sample.length = loopCount s.num_joints)
    (ho : other.flow ≠ FlowStatus.NoData →
      other.sample.length = loopCount s.num_joints) :
    (loopCount s.num_joints : Int) = s.num_joints
    ∧ ((readFromOrocos posPort trqPort s).cmd_pos
      = if posPort.flow = FlowStatus.NoData then s.cmd_pos else posPort.sample)
    ∧ ((readFromOrocos posPort trqPort s).cmd_trq
      = if trqPort.flow = FlowStatus.NoData then s.cmd_trq else trqPort.sample)
    ∧ (readFromOrocos posPort trqPort s).cmd_pos.length = loopCount s.num_joints
    ∧ (readFromOrocos posPort trqPort s).cmd_trq.length = loopCount s.num_joints
    ∧ (posPort.flow ≠ FlowStatus.NoData →
        ∀ i, i < loopCount s.num_joints →
          (readFromOrocos posPort trqPort s).cmd_pos.getD i 0 = posPort.sample.getD i 0)
    ∧ (trqPort.flow ≠ FlowStatus.NoData →
        ∀ i, i < loopCount s.num_joints →
          (readFromOrocos posPort trqPort s).cmd_trq.getD i 0 = trqPort.sample.getD i 0)
    ∧ (readFromOrocos posPort trqPort s).cmd_pos = (readFromOrocos posPort other s).cmd_pos
    ∧ (readFromOrocos posPort trqPort s).cmd_trq
        = (readFromOrocos other trqPort s).cmd_trq := by
  have hcount : (loopCount s.num_joints : Int) = s.num_joints := by
    unfold loopCount
    exact Int.toNat_of_nonneg hn
  have _hother := ho
  have hfull : ∀ (buf sample : List Scalar), buf.length = loopCount s.num_joints →
      sample.length = loopCount s.num_joints →
      overwritten (min (loopCount s.num_joints) buf.length)
        (fun i => sample.getD i 0) buf = sample := by
    intro buf sample h1 h2
    rw [h1, Nat.min_self, overwritten_full _ _ _ h1, ← h2]
    exact range_map_getD sample 0
  have e1 : (readFromOrocos posPort trqPort s).cmd_pos
      = if posPort.flow = FlowStatus.NoData then s.cmd_pos else posPort.sample := by
    rw [readFromOrocos_cmd_pos]
    by_cases h : posPort.flow = FlowStatus.NoData
    · rw [if_pos h, if_pos h]
    · rw [if_neg h, if_neg h, hfull _ _ hpos (hp h)]
  have e2 : (readFromOrocos posPort trqPort s).cmd_trq
      = if trqPort.flow = FlowStatus.NoData then s.cmd_trq else trqPort.sample := by
    rw [readFromOrocos_cmd_trq]
    by_cases h : trqPort.flow = FlowStatus.NoData
    · rw [if_pos h, if_pos h]
    · rw [if_neg h, if_neg h, hfull _ _ htrq (ht h)]
  refine ⟨hcount, e1, e2, ?_, ?_, ?_, ?_, ?_, ?_⟩
  · rw [e1]
    by_cases h : posPort.flow = FlowStatus.NoData
    · rw [if_pos h]
      exact hpos
    · rw [if_neg h]
      exact hp h
  · rw [e2]
    by_cases h : trqPort.flow = FlowStatus.NoData
    · rw [if_pos h]
      exact htrq
    · rw [if_neg h]
      exact ht h
  · intro h i _
    rw [e1, if_neg h]
  · intro h i _
    rw [e2, if_neg h]
  · rw [readFromOrocos_cmd_pos posPort trqPort s, readFromOrocos_cmd_pos posPort other s]
  · rw [readFromOrocos_cmd_trq posPort trqPort s, readFromOrocos_cmd_trq other trqPort s]

/-- Instance of C7 on the two-joint demo robot: only the torque port delivers
data (8, 9); the position command buffer 3, 4 is untouched and the torque
command buffer becomes 8, 9. -/
theorem readFromOrocos_channels_witness :
    (0 ≤ gravState.num_joints
      ∧ gravState.cmd_pos.length = loopCount gravState.num_joints
      ∧ gravState.cmd_trq.length = loopCount gravState.num_joints
      ∧ freshTorquePort.sample.length = loopCount gravState.num_joints
      ∧ silentPort.flow = FlowStatus.NoData
      ∧ gravState.cmd_pos = [3, 4] ∧ gravState.cmd_trq = [5, 6]
      ∧ (readFromOrocos silentPort freshTorquePort gravState).cmd_pos = [3, 4]
      ∧ (readFromOrocos silentPort freshTorquePort gravState).cmd_trq = [8, 9])
    ∧ ((readFromOrocos silentPort freshTorquePort gravState).cmd_pos
        = (if silentPort.flow = FlowStatus.NoData then gravState.cmd_pos
            else silentPort.sample)
      ∧ (readFromOrocos silentPort freshTorquePort gravState).cmd_trq
        = (if freshTorquePort.flow = FlowStatus.NoData then gravState.cmd_trq
            else freshTorquePort.sample)) :=
  ⟨by decide,
    ⟨(readFromOrocos_channels silentPort freshTorquePort silentPort gravState
        (by decide) (by decide) (by decide) (by decide) (by decide) (by decide)).2.1,
     (readFromOrocos_channels silentPort freshTorquePort silentPort gravState
        (by decide) (by decide) (by decide) (by decide) (by decide) (by decide)).2.2.1⟩⟩

/-- C8: `configure` returns false whenever the simulator is not connected, or
the robot id is negative, or the simulator reports a joint count of zero or
less; in each of these cases the name-to-index mapping, the index vector and
every buffer are exactly what they were (the state after the call differs from
the state before in no field other than `num_joints`). -/
theorem configure_fails_fast (sim : Sim) (heap : Heap) (s : State)
    (h : sim.isConnected = false ∨ s.robot_id < 0 ∨ sim.getNumJoints s.robot_id ≤ 0) :
    (configure sim heap s).1 = false
    ∧ (configure sim heap s).2.map_joint_names_2_indices = s.map_joint_names_2_indices
    ∧ (configure sim heap s).2.vec_joint_indices = s.vec_joint_indices
    ∧ { (configure sim heap s).2 with num_joints := s.num_joints } = s := by
  unfold configure
  by_cases h1 : sim.isConnected = true
  · by_cases h2 : s.robot_id < 0
    · simp [h1, h2]
    · by_cases h3 : sim.getNumJoints s.robot_id ≤ 0
      · simp [h1, h2, h3]
      · rcases h with h | h | h
        · rw [h1] at h
          cases h
        · exact absurd h h2
        · exact absurd h h3
  · simp [h1]

/-- Instance of C8: the configured demo robot is configured again while the
simulator is offline; the call fails and mapping, index vector and buffers are
kept. -/
theorem configure_fails_fast_witness :
    (offlineSim.isConnected = false ∨ demoState.robot_id < 0
      ∨ offlineSim.getNumJoints demoState.robot_id ≤ 0)
    ∧ ((configure offlineSim demoHeap demoState).1 = false
      ∧ (configure offlineSim demoHeap demoState).2.map_joint_names_2_indices
          = demoState.map_joint_names_2_indices
      ∧ (configure offlineSim demoHeap demoState).2.vec_joint_indices
          = demoState.vec_joint_indices
      ∧ { (configure offlineSim demoHeap demoState).2 with
            num_joints := demoState.num_joints } = demoState) :=
  ⟨Or.inl (by decide), configure_fails_fast offlineSim demoHeap demoState (Or.inl (by decide))⟩

/-- C9, as stated, fails: the demo robot was configured with two joints; a
second `configure` against a connected simulator that reports zero joints
returns false and leaves `num_joints` at -1 instead of 2. -/
theorem configure_zero_joints_changes_state :
    (configure emptySim demoHeap demoState).1 = false
    ∧ demoState.num_joints = 2
    ∧ (configure emptySim demoHeap demoState).2.num_joints = -1
    ∧ (configure emptySim demoHeap demoState).2 ≠ demoState := by
  decide

/-- C9 (amended): whenever `configure` returns false, one of the three causes
holds; if the simulator is not connected or the robot id is negative, the
state after the call is identical to the state before; otherwise (connected,
body associated, zero or fewer joints reported) the state after the call is the
state before with `num_joints` set to -1 and every other field identical. -/
theorem configure_failure_state (sim : Sim) (heap : Heap) (s : State)
    (h : (configure sim heap s).1 = false) :
    (sim.isConnected = false ∨ s.robot_id < 0 ∨ sim.getNumJoints s.robot_id ≤ 0)
    ∧ ((sim.isConnected = false ∨ s.robot_id < 0) → (configure sim heap s).2 = s)
    ∧ ((sim.isConnected = true ∧ ¬ s.robot_id < 0) →
        (configure sim heap s).2 = { s with num_joints := -1 }) := by
  obtain ⟨hc, hs⟩ := configure_false sim heap s h
  refine ⟨hc, ?_, ?_⟩
  · intro h1
    rw [hs, if_neg]
    rintro ⟨a, b⟩
    rcases h1 with h1 | h1
    · rw [a] at h1
      cases h1
    · exact b h1
  · intro h1
    rw [hs, if_pos h1]

/-- Instance of C9 (amended): the offline simulator leaves the demo robot
unchanged, the simulator reporting zero joints changes `num_joints` only. -/
theorem configure_failure_state_witness :
    ((configure offlineSim demoHeap demoState).1 = false
      ∧ (configure offlineSim demoHeap demoState).2 = demoState
      ∧ (configure emptySim demoHeap demoState).1 = false)
    ∧ (configure emptySim demoHeap demoState).2 = { demoState with num_joints := -1 } :=
  ⟨by decide,
    (configure_failure_state emptySim demoHeap demoState (by decide)).2.2
      ⟨by decide, by decide⟩⟩

/-- C10, as stated, fails: on a report of two non-fixed joints of which one has
joint index -1, `configure` returns true with `num_joints = 1`, while two
reported joints are not of the fixed type. -/
theorem configure_skips_negative_index :
    (configure negIndexSim demoHeap demoInit).1 = true
    ∧ (nonFixedJoints negIndexSim demoInit.robot_id
        (negIndexSim.getNumJoints demoInit.robot_id).toNat).length = 2
    ∧ (configure negIndexSim demoHeap demoInit).2.num_joints = 1
    ∧ (configure negIndexSim demoHeap demoInit).2.vec_joint_indices = [0]
    ∧ (configure negIndexSim demoHeap demoInit).2.num_joints
        ≠ ((nonFixedJoints negIndexSim demoInit.robot_id
            (negIndexSim.getNumJoints demoInit.robot_id).toNat).length : Int) := by
  decide

/-- C10 (amended): whenever `configure` returns true, `num_joints` equals the
number of reported joints whose type is not the fixed type and whose reported
joint index is greater than -1, and the active index sequence (both
`vec_joint_indices` and `joint_indices`) lists the simulator joint indices of
exactly those joints in report order; when every reported joint index is
greater than -1 these joints are exactly the reported non-fixed joints. -/
theorem configure_active_joints (sim : Sim) (heap : Heap) (s : State)
    (h : (configure sim heap s).1 = true) :
    (configure sim heap s).2.num_joints
      = ((activeJoints sim s.robot_id (sim.getNumJoints s.robot_id).toNat).length : Int)
    ∧ (configure sim heap s).2.vec_joint_indices
      = (activeJoints sim s.robot_id (sim.getNumJoints s.robot_id).toNat).map
          (fun j => j.m_jointIndex)
    ∧ (configure sim heap s).2.joint_indices
      = (activeJoints sim s.robot_id (sim.getNumJoints s.robot_id).toNat).map
          (fun j => j.m_jointIndex)
    ∧ (∀ j, j ∈ activeJoints sim s.robot_id (sim.getNumJoints s.robot_id).toNat ↔
        (j ∈ reportedJoints sim s.robot_id (sim.getNumJoints s.robot_id).toNat
          ∧ j.m_jointIndex > -1 ∧ j.m_jointType ≠ JointType.eFixedType))
    ∧ ((∀ j, j ∈ reportedJoints sim s.robot_id (sim.getNumJoints s.robot_id).toNat →
          j.m_jointIndex > -1) →
        activeJoints sim s.robot_id (sim.getNumJoints s.robot_id).toNat
          = nonFixedJoints sim s.robot_id (sim.getNumJoints s.robot_id).toNat) := by
  obtain ⟨_, _, _, hc⟩ := configure_true sim heap s h
  obtain ⟨c1, _, c3, c4⟩ :=
    configureSetup_indices sim heap s (sim.getNumJoints s.robot_id)
  rw [hc]
  refine ⟨c3, c1, c4, ?_, ?_⟩
  · intro j
    simp [activeJoints, isActiveJoint]
  · intro hall
    unfold activeJoints nonFixedJoints
    apply List.filter_congr
    intro j hj
    have hj2 := hall j hj
    simp [isActiveJoint, hj2]

/-- Instance of C10 (amended) on the demo robot: of the three reported joints
the two revolute ones are active, with indices 0 and 2. -/
theorem configure_active_joints_witness :
    ((configure demoSim demoHeap demoInit).1 = true
      ∧ (configure demoSim demoHeap demoInit).2.num_joints = 2
      ∧ (configure demoSim demoHeap demoInit).2.vec_joint_indices = [0, 2]
      ∧ (configure demoSim demoHeap demoInit).2.joint_indices = [0, 2])
    ∧ (configure demoSim demoHeap demoInit).2.num_joints
      = ((activeJoints demoSim demoInit.robot_id
          (demoSim.getNumJoints demoInit.robot_id).toNat).length : Int) :=
  ⟨by decide, (configure_active_joints demoSim demoHeap demoInit (by decide)).1⟩

/-- C11: after `configure` returns true, with `n` the joint count stored in
`num_joints` (which is not negative), every per-joint buffer has exactly `n`
entries and the inertia buffer `n * n`: the position, velocity,
gravity/Coriolis, position-command, torque-command, zero-force,
zero-acceleration and target-position buffers hold `n` zeros, the inertia
buffer holds `n * n` zeros, every one of the `n` max-force entries is 200, the
index array has `n` entries, and the port variables are zero vectors of the
same sizes. -/
theorem configure_buffers (sim : Sim) (heap : Heap) (s : State)
    (h : (configure sim heap s).1 = true) :
    ((loopCount (configure sim heap s).2.num_joints : Int)
        = (configure sim heap s).2.num_joints)
    ∧ (configure sim heap s).2.joint_indices.length
        = loopCount (configure sim heap s).2.num_joints
    ∧ (configure sim heap s).2.q
        = List.replicate (loopCount (configure sim heap s).2.num_joints) 0
    ∧ (configure sim heap s).2.qd
        = List.replicate (loopCount (configure sim heap s).2.num_joints) 0
    ∧ (configure sim heap s).2.gc
        = List.replicate (loopCount (configure sim heap s).2.num_joints) 0
    ∧ (configure sim heap s).2.M
        = List.replicate (loopCount (configure sim heap s).2.num_joints
            * loopCount (configure sim heap s).2.num_joints) 0
    ∧ (configure sim heap s).2.cmd_pos
        = List.replicate (loopCount (configure sim heap s).2.num_joints) 0
    ∧ (configure sim heap s).2.cmd_trq
        = List.replicate (loopCount (configure sim heap s).2.num_joints) 0
    ∧ (configure sim heap s).2.zero_forces
        = List.replicate (loopCount (configure sim heap s).2.num_joints) 0
    ∧ (configure sim heap s).2.zero_accelerations
        = List.replicate (loopCount (configure sim heap s).2.num_joints) 0
    ∧ (configure sim heap s).2.target_positions
        = List.replicate (loopCount (configure sim heap s).2.num_joints) 0
    ∧ (configure sim heap s).2.max_forces
        = List.replicate (loopCount (configure sim heap s).2.num_joints) 200
    ∧ (configure sim heap s).2.out_position_fdb_var
        = List.replicate (loopCount (configure sim heap s).2.num_joints) 0
    ∧ (configure sim heap s).2.out_velocities_fdb_var
        = List.replicate (loopCount (configure sim heap s).2.num_joints) 0
    ∧ (configure sim heap s).2.out_gc_fdb_var
        = List.replicate (loopCount (configure sim heap s).2.num_joints) 0
    ∧ (configure sim heap s).2.out_inertia_fdb_var
        = List.replicate (loopCount (configure sim heap s).2.num_joints
            * loopCount (configure sim heap s).2.num_joints) 0
    ∧ (configure sim heap s).2.in_JointPositionCtrl_cmd_var
        = List.replicate (loopCount (configure sim heap s).2.num_joints) 0
    ∧ (configure sim heap s).2.in_JointTorqueCtrl_cmd_var
        = List.replicate (loopCount (configure sim heap s).2.num_joints) 0 := by
  obtain ⟨_, _, _, hc⟩ := configure_true sim heap s h
  obtain ⟨_, _, c3, c4⟩ := configureSetup_indices sim heap s (sim.getNumJoints s.robot_id)
  obtain ⟨b1, b2, b3, b4, b5, b6, b7, b8, b9, b10⟩ :=
    configureSetup_buffers sim heap s (sim.getNumJoints s.robot_id)
  obtain ⟨p1, p2, p3, p4, p5, p6, _, _⟩ :=
    configureSetup_ports sim heap s (sim.getNumJoints s.robot_id)
  rw [hc]
  simp only
  have hn : loopCount (configureSetup sim heap s (sim.getNumJoints s.robot_id)).num_joints
      = (activeJoints sim s.robot_id (sim.getNumJoints s.robot_id).toNat).length := by
    rw [c3]
    simp [loopCount]
  rw [hn]
  refine ⟨c3.symm, ?_, b5, b6, b7, b10, b9, b8, b1, b2, b4, b3, p3, p4, p5, p6, p1, p2⟩
  rw [c4]
  simp

/-- Instance of C11 on the demo robot: two active joints, so two zeros in each
vector buffer, four zeros in the inertia buffer and max forces 200, 200,
whatever the allocated memory held before. -/
theorem configure_buffers_witness :
    ((configure demoSim demoHeap demoInit).1 = true
      ∧ (configure demoSim demoHeap demoInit).2.num_joints = 2
      ∧ (configure demoSim demoHeap demoInit).2.M = [0, 0, 0, 0]
      ∧ (configure demoSim demoHeap demoInit).2.cmd_pos = [0, 0])
    ∧ (configure demoSim demoHeap demoInit).2.max_forces
        = List.replicate (loopCount (configure demoSim demoHeap demoInit).2.num_joints) 200 :=
  ⟨by decide,
    (configure_buffers demoSim demoHeap demoInit (by decide)).2.2.2.2.2.2.2.2.2.2.2.1⟩

/-- C12, as stated, fails: a connected body whose two reported joints are both
of the fixed type makes `configure` return true with `num_joints = 0`. -/
theorem configure_all_fixed_succeeds :
    (configure allFixedSim demoHeap demoInit).1 = true
    ∧ nonFixedJoints allFixedSim demoInit.robot_id
        (allFixedSim.getNumJoints demoInit.robot_id).toNat = []
    ∧ (configure allFixedSim demoHeap demoInit).2.num_joints = 0
    ∧ ¬ (configure allFixedSim demoHeap demoInit).2.num_joints ≥ 1 := by
  decide

/-- C12 (amended): `configure` requires a body with at least one reported
joint, fixed or not. It returns true exactly when the simulator is connected,
the robot id is not negative and the simulator reports a joint count of at
least 1; whenever it returns true, `num_joints` is at least 0 and at most the
reported count; and a connected body with a non-negative id and at least one
reported joint all of whose reported joints are of the fixed type makes
`configure` return true with `num_joints = 0`. -/
theorem configure_requires_reported_joint (sim : Sim) (heap : Heap) (s : State) :
    ((configure sim heap s).1 = true
      ↔ (sim.isConnected = true ∧ 0 ≤ s.robot_id ∧ 1 ≤ sim.getNumJoints s.robot_id))
    ∧ ((configure sim heap s).1 = true →
        0 ≤ (configure sim heap s).2.num_joints
        ∧ (configure sim heap s).2.num_joints ≤ sim.getNumJoints s.robot_id)
    ∧ ((sim.isConnected = true ∧ 0 ≤ s.robot_id ∧ 1 ≤ sim.getNumJoints s.robot_id
          ∧ ∀ j, j ∈ reportedJoints sim s.robot_id (sim.getNumJoints s.robot_id).toNat →
              j.m_jointType = JointType.eFixedType) →
        (configure sim heap s).1 = true ∧ (configure sim heap s).2.num_joints = 0) := by
  have hbounds : (configure sim heap s).1 = true →
      0 ≤ (configure sim heap s).2.num_joints
      ∧ (configure sim heap s).2.num_joints ≤ sim.getNumJoints s.robot_id := by
    intro h
    obtain ⟨_, _, h3, hc⟩ := configure_true sim heap s h
    obtain ⟨_, _, c3, _⟩ := configureSetup_indices sim heap s (sim.getNumJoints s.robot_id)
    rw [hc]
    simp only
    rw [c3]
    have hle : (activeJoints sim s.robot_id (sim.getNumJoints s.robot_id).toNat).length
        ≤ (sim.getNumJoints s.robot_id).toNat := by
      have h1 := List.length_filter_le isActiveJoint
        (reportedJoints sim s.robot_id (sim.getNumJoints s.robot_id).toNat)
      simpa [activeJoints, reportedJoints] using h1
    exact ⟨by omega, by omega⟩
  refine ⟨configure_true_iff sim heap s, hbounds, ?_⟩
  rintro ⟨h1, h2, h3, hall⟩
  have ht : (configure sim heap s).1 = true :=
    (configure_true_iff sim heap s).mpr ⟨h1, h2, h3⟩
  refine ⟨ht, ?_⟩
  obtain ⟨_, _, _, hc⟩ := configure_true sim heap s ht
  obtain ⟨_, _, c3, _⟩ := configureSetup_indices sim heap s (sim.getNumJoints s.robot_id)
  rw [hc]
  simp only
  rw [c3]
  have he : activeJoints sim s.robot_id (sim.getNumJoints s.robot_id).toNat = [] := by
    unfold activeJoints
    rw [List.filter_eq_nil_iff]
    intro j hj
    simp [isActiveJoint, hall j hj]
  rw [he]
  rfl

/-- Instance of C12 (amended): the connected all-fixed body with id 0 and two
reported joints is accepted with zero active joints. -/
theorem configure_requires_reported_joint_witness :
    (allFixedSim.isConnected = true ∧ demoInit.robot_id = 0
      ∧ allFixedSim.getNumJoints demoInit.robot_id = 2
      ∧ (reportedJoints allFixedSim demoInit.robot_id
          (allFixedSim.getNumJoints demoInit.robot_id).toNat).map (fun j => j.m_jointType)
        = [JointType.eFixedType, JointType.eFixedType])
    ∧ ((configure allFixedSim demoHeap demoInit).1 = true
      ∧ (configure allFixedSim demoHeap demoInit).2.num_joints = 0) :=
  ⟨by decide,
    (configure_requires_reported_joint allFixedSim demoHeap demoInit).2.2
      ⟨by decide, by decide, by decide, by decide⟩⟩

/-- C13: `setControlMode` sets the requested mode to JointPosCtrl for
"JointPositionCtrl", to JointTrqCtrl for "JointTorqueCtrl" and to JointGravComp
for "JointGravComp", changing nothing else; for every other string, among them
the empty string and names in a different case, the state is unchanged. -/
theorem setControlMode_mapping (s : State) (m : String) :
    setControlMode s "JointPositionCtrl"
      = { s with requested_control_mode := ControlModes.JointPosCtrl }
    ∧ setControlMode s "JointTorqueCtrl"
      = { s with requested_control_mode := ControlModes.JointTrqCtrl }
    ∧ setControlMode s "JointGravComp"
      = { s with requested_control_mode := ControlModes.JointGravComp }
    ∧ ((m ≠ "JointPositionCtrl" ∧ m ≠ "JointTorqueCtrl" ∧ m ≠ "JointGravComp") →
        setControlMode s m = s)
    ∧ setControlMode s "" = s
    ∧ setControlMode s "jointpositionctrl" = s
    ∧ setControlMode s "JOINTTORQUECTRL" = s
    ∧ setControlMode s "jointGravComp" = s := by
  refine ⟨by simp [setControlMode], by simp [setControlMode], by simp [setControlMode],
    ?_, by simp [setControlMode], by simp [setControlMode], by simp [setControlMode],
    by simp [setControlMode]⟩
  rintro ⟨h1, h2, h3⟩
  simp [setControlMode, h1, h2, h3]

/-- C15 fails on the code: with JointGravComp active and JointTrqCtrl
requested (both torque-related), `act` still issues the release-brakes call
before the torque write; the same happens on the configured demo robot after
the calls `setControlMode("JointGravComp")`, `act`,
`setControlMode("JointTorqueCtrl")`. -/
theorem act_releases_brakes_between_torque_modes :
    gravToTrqState.active_control_mode = ControlModes.JointGravComp
    ∧ gravToTrqState.requested_control_mode = ControlModes.JointTrqCtrl
    ∧ (act gravToTrqState).2 =
        [SimCall.setJointMotorControlArray 0
          { m_controlMode := b3ControlMode.CONTROL_MODE_VELOCITY
            m_numControlledDofs := 2
            m_jointIndices := some [0, 2]
            m_forces := some [0, 0] },
         SimCall.setJointMotorControlArray 0
          { m_controlMode := b3ControlMode.CONTROL_MODE_TORQUE
            m_numControlledDofs := 2
            m_jointIndices := some [0, 2]
            m_forces := some [5, 6] }]
    ∧ setupCalls (act gravToTrqState).2 = 1
    ∧ (runCalls [Call.setControlMode "JointGravComp", Call.act,
          Call.setControlMode "JointTorqueCtrl"] demoState).active_control_mode
        = ControlModes.JointGravComp
    ∧ (act (runCalls [Call.setControlMode "JointGravComp", Call.act,
          Call.setControlMode "JointTorqueCtrl"] demoState)).2 =
        [SimCall.setJointMotorControlArray 0
          { m_controlMode := b3ControlMode.CONTROL_MODE_VELOCITY
            m_numControlledDofs := 2
            m_jointIndices := some [0, 2]
            m_forces := some [0, 0] },
         SimCall.setJointMotorControlArray 0
          { m_controlMode := b3ControlMode.CONTROL_MODE_TORQUE
            m_numControlledDofs := 2
            m_jointIndices := some [0, 2]
            m_forces := some [0, 0] }] := by
  decide

/-- C16: for every state, after `act` the active mode equals the requested
mode and the requested mode is the one it was before; a second `act` right
after changes nothing and issues exactly one simulator call, the torque-mode
write for that mode, and no mode-setup call. -/
theorem act_reconciles_modes (s : State) :
    (act s).1.active_control_mode = s.requested_control_mode
    ∧ (act s).1.requested_control_mode = s.requested_control_mode
    ∧ (act (act s).1).1 = (act s).1
    ∧ (act (act s).1).2 =
        [SimCall.setJointMotorControlArray s.robot_id
          { m_controlMode := b3ControlMode.CONTROL_MODE_TORQUE
            m_numControlledDofs := s.num_joints
            m_jointIndices := some s.joint_indices
            m_forces := some
              (match s.requested_control_mode with
                | ControlModes.JointGravComp => s.gc
                | ControlModes.JointPosCtrl => s.cmd_pos
                | ControlModes.JointTrqCtrl => s.cmd_trq) }]
    ∧ setupCalls (act (act s).1).2 = 0 := by
  have h1 : (act s).1 = { s with active_control_mode := s.requested_control_mode } := by
    unfold act actSwitch
    by_cases h : s.requested_control_mode = s.active_control_mode
    · rw [if_neg (by simpa using h)]
      cases s
      simp only at h
      simp only [h]
    · rw [if_pos h]
  rw [h1]
  unfold act actSwitch actSend
  cases hm : s.requested_control_mode <;>
    simp [torqueCall, setupCalls]

/-- C17: the active control mode is left exactly as it was by `setControlMode`,
`setActiveKinematicChain`, `writeToOrocos` and `configure` for every state and
every input, and by `readFromOrocos` and `sense` for every input in every state
with `num_joints ≥ 0`, which is the case in every state reached from a
successful `configure` (the two functions loop up to `num_joints` with an
unsigned counter, so the marker -1 of a failed `configure` is excluded); `act`
sets the active mode to the requested mode and leaves the requested mode as it
was. -/
theorem active_mode_written_only_by_act (s : State) (controlMode : String)
    (jointNames : List String) (posPort trqPort : PortRead) (sim : Sim) (heap : Heap) :
    (setControlMode s controlMode).active_control_mode = s.active_control_mode
    ∧ (setActiveKinematicChain s jointNames).2.active_control_mode = s.active_control_mode
    ∧ (0 ≤ s.num_joints →
        (readFromOrocos posPort trqPort s).active_control_mode = s.active_control_mode)
    ∧ (0 ≤ s.num_joints → (sense sim s).1.active_control_mode = s.active_control_mode)
    ∧ (writeToOrocos s).1.active_control_mode = s.active_control_mode
    ∧ (configure sim heap s).2.active_control_mode = s.active_control_mode
    ∧ (act s).1.requested_control_mode = s.requested_control_mode
    ∧ (act s).1.active_control_mode = s.requested_control_mode
    ∧ (∀ (calls : List Call), (configure sim heap s).1 = true →
        0 ≤ (runCalls calls (configure sim heap s).2).num_joints) := by
  refine ⟨?_, (setActiveKinematicChain_frame s jointNames).1,
    fun _ => (readFromOrocos_frame posPort trqPort s).1, fun _ => (sense_frame sim s).1, rfl,
    configure_frame sim heap s, ?_, ?_, ?_⟩
  · have h := congrArg State.active_control_mode (setControlMode_frame s controlMode)
    exact h
  · rw [act_state]
  · rw [act_state]
  · intro calls h
    exact configured_num_joints_nonneg sim heap s calls h

/-- Instance of C17 on the configured demo robot (two joints, gravity
compensation active): a command read and a sensing cycle leave gravity
compensation active. -/
theorem active_mode_written_only_by_act_witness :
    (0 ≤ gravState.num_joints
      ∧ gravState.active_control_mode = ControlModes.JointGravComp)
    ∧ ((readFromOrocos silentPort freshTorquePort gravState).active_control_mode
        = gravState.active_control_mode
      ∧ (sense demoSim gravState).1.active_control_mode = gravState.active_control_mode) :=
  ⟨by decide,
    ⟨(active_mode_written_only_by_act gravState "JointTorqueCtrl" ["elbow", "shoulder"]
        silentPort freshTorquePort demoSim demoHeap).2.2.1 (by decide),
     (active_mode_written_only_by_act gravState "JointTorqueCtrl" ["elbow", "shoulder"]
        silentPort freshTorquePort demoSim demoHeap).2.2.2.1 (by decide)⟩⟩

/-- C18: for a freshly constructed manipulator (active JointGravComp,
requested JointPosCtrl) on which `configure` succeeds, the requested mode after
`configure` is JointPosCtrl and the active mode still JointGravComp; the first
`act`, run directly or after a `readFromOrocos` in which neither port has data,
issues the PD-setup call with `num_joints` max forces of 200 and `num_joints`
target positions of 0, followed by the torque-mode write of the all-zero
position-command buffer, and leaves JointPosCtrl active. -/
theorem first_act_after_configure (sim : Sim) (heap : Heap) (name : String)
    (model_id : Int) (uninit : State) (posPort trqPort : PortRead)
    (h : (configure sim heap (RobotManipulator name model_id uninit)).1 = true) :
    (RobotManipulator name model_id uninit).active_control_mode = ControlModes.JointGravComp
    ∧ (RobotManipulator name model_id uninit).requested_control_mode
        = ControlModes.JointPosCtrl
    ∧ (configure sim heap (RobotManipulator name model_id uninit)).2.requested_control_mode
        = ControlModes.JointPosCtrl
    ∧ (configure sim heap (RobotManipulator name model_id uninit)).2.active_control_mode
        = ControlModes.JointGravComp
    ∧ (act (configure sim heap (RobotManipulator name model_id uninit)).2).2 =
        [SimCall.setJointMotorControlArray model_id
          { m_controlMode := b3ControlMode.CONTROL_MODE_POSITION_VELOCITY_PD
            m_numControlledDofs :=
              (configure sim heap (RobotManipulator name model_id uninit)).2.num_joints
            m_jointIndices := some
              (configure sim heap (RobotManipulator name model_id uninit)).2.joint_indices
            m_forces := some (List.replicate (loopCount
              (configure sim heap (RobotManipulator name model_id uninit)).2.num_joints) 200)
            m_targetPositions := some (List.replicate (loopCount
              (configure sim heap (RobotManipulator name model_id uninit)).2.num_joints) 0) },
         SimCall.setJointMotorControlArray model_id
          { m_controlMode := b3ControlMode.CONTROL_MODE_TORQUE
            m_numControlledDofs :=
              (configure sim heap (RobotManipulator name model_id uninit)).2.num_joints
            m_jointIndices := some
              (configure sim heap (RobotManipulator name model_id uninit)).2.joint_indices
            m_forces := some (List.replicate (loopCount
              (configure sim heap (RobotManipulator name model_id uninit)).2.num_joints) 0) }]
    ∧ (act (configure sim heap (RobotManipulator name model_id uninit)).2).1.active_control_mode
        = ControlModes.JointPosCtrl
    ∧ ((posPort.flow = FlowStatus.NoData ∧ trqPort.flow = FlowStatus.NoData) →
        (act (readFromOrocos posPort trqPort
            (configure sim heap (RobotManipulator name model_id uninit)).2)).2
          = (act (configure sim heap (RobotManipulator name model_id uninit)).2).2
        ∧ (act (readFromOrocos posPort trqPort
            (configure sim heap (RobotManipulator name model_id uninit)).2)).1.active_control_mode
          = ControlModes.JointPosCtrl) := by
  obtain ⟨_, _, _, hc⟩ := configure_true sim heap _ h
  obtain ⟨m1, m2, m3⟩ := configureSetup_modes sim heap (RobotManipulator name model_id uninit)
    (sim.getNumJoints (RobotManipulator name model_id uninit).robot_id)
  obtain ⟨_, _, c3, _⟩ := configureSetup_indices sim heap (RobotManipulator name model_id uninit)
    (sim.getNumJoints (RobotManipulator name model_id uninit).robot_id)
  obtain ⟨_, _, b3, b4, _, _, _, _, b9, _⟩ :=
    configureSetup_buffers sim heap (RobotManipulator name model_id uninit)
      (sim.getNumJoints (RobotManipulator name model_id uninit).robot_id)
  rw [hc]
  simp only
  generalize configureSetup sim heap (RobotManipulator name model_id uninit)
    (sim.getNumJoints (RobotManipulator name model_id uninit).robot_id) = c
    at m1 m2 m3 c3 b3 b4 b9
  generalize activeJoints sim (RobotManipulator name model_id uninit).robot_id
    (sim.getNumJoints (RobotManipulator name model_id uninit).robot_id).toNat = A
    at c3 b3 b4 b9
  have hact : c.active_control_mode = ControlModes.JointGravComp := m2
  have hid : c.robot_id = model_id := m3
  have hne : c.active_control_mode ≠ ControlModes.JointPosCtrl := by
    rw [hact]
    decide
  have hn : loopCount c.num_joints = A.length := by
    rw [c3]
    simp [loopCount]
  have hcalls := act_position_switch c m1 hne
  have hcalls2 : (act c).2 =
      [SimCall.setJointMotorControlArray model_id
        { m_controlMode := b3ControlMode.CONTROL_MODE_POSITION_VELOCITY_PD
          m_numControlledDofs := c.num_joints
          m_jointIndices := some c.joint_indices
          m_forces := some (List.replicate (loopCount c.num_joints) 200)
          m_targetPositions := some (List.replicate (loopCount c.num_joints) 0) },
       SimCall.setJointMotorControlArray model_id
        { m_controlMode := b3ControlMode.CONTROL_MODE_TORQUE
          m_numControlledDofs := c.num_joints
          m_jointIndices := some c.joint_indices
          m_forces := some (List.replicate (loopCount c.num_joints) 0) }] := by
    rw [hcalls, hn]
    simp only [pdSetupCall, torqueCall, b3, b4, b9, hid]
  refine ⟨rfl, rfl, m1, hact, hcalls2, ?_, ?_⟩
  · rw [act_state, m1]
  · rintro ⟨hp, ht⟩
    rw [readFromOrocos_silent posPort trqPort c hp ht]
    refine ⟨?_, ?_⟩
    · exact act_calls_ignore_flows c FlowStatus.NoData FlowStatus.NoData
    · rw [act_state]
      exact m1

/-- Instance of C18 on the demo robot: PD setup with max forces 200, 200 and
targets 0, 0, then a torque-mode write of 0, 0. -/
theorem first_act_after_configure_witness :
    ((configure demoSim demoHeap (RobotManipulator "arm" 0 blankState)).1 = true
      ∧ (act (configure demoSim demoHeap (RobotManipulator "arm" 0 blankState)).2).2 =
        [SimCall.setJointMotorControlArray 0
          { m_controlMode := b3ControlMode.CONTROL_MODE_POSITION_VELOCITY_PD
            m_numControlledDofs := 2
            m_jointIndices := some [0, 2]
            m_forces := some [200, 200]
            m_targetPositions := some [0, 0] },
         SimCall.setJointMotorControlArray 0
          { m_controlMode := b3ControlMode.CONTROL_MODE_TORQUE
            m_numControlledDofs := 2
            m_jointIndices := some [0, 2]
            m_forces := some [0, 0] }])
    ∧ (act (configure demoSim demoHeap
        (RobotManipulator "arm" 0 blankState)).2).1.active_control_mode
        = ControlModes.JointPosCtrl :=
  ⟨by decide,
    (first_act_after_configure demoSim demoHeap "arm" 0 blankState silentPort silentPort
      (by decide)).2.2.2.2.2.1⟩

/-- C19, as stated, fails in its last part: on a report of two revolute joints
"a" and "b" that both carry joint index 5, `configure` succeeds with two active
joints and the index sequence 5, 5; the list "a", "a", which repeats one known
name, is accepted and leaves the sequence 5, 5, which is a permutation of the
configured one. -/
theorem setActiveKinematicChain_repeat_can_be_permutation :
    (configure twinIndexSim demoHeap demoInit).1 = true
    ∧ (configure twinIndexSim demoHeap demoInit).2.num_joints = 2
    ∧ (configure twinIndexSim demoHeap demoInit).2.vec_joint_indices = [5, 5]
    ∧ ¬ (["a", "a"] : List String).Nodup
    ∧ (setActiveKinematicChain (configure twinIndexSim demoHeap demoInit).2 ["a", "a"]).1
        = true
    ∧ (setActiveKinematicChain (configure twinIndexSim demoHeap demoInit).2
        ["a", "a"]).2.vec_joint_indices = [5, 5]
    ∧ List.Perm
        (setActiveKinematicChain (configure twinIndexSim demoHeap demoInit).2
          ["a", "a"]).2.vec_joint_indices
        (configure twinIndexSim demoHeap demoInit).2.vec_joint_indices := by
  decide

/-- C19 (amended): for every state, `setActiveKinematicChain` returns true
exactly when the list length equals the size of `vec_joint_indices` (the
active-joint count) and every listed name is a key of the name-to-index
mapping; in every successful call the mapping is unchanged and the index vector
becomes the indices the mapping holds for the listed names. Distinct names are
not required: with at least two active joints the list that repeats one known
name is accepted, and whenever an accepted list repeats a name the resulting
index sequence contains a repeated index; it is not a permutation of the
previous index sequence whenever that sequence has pairwise distinct indices,
which is the case after a successful `configure` whose active joints have
pairwise distinct simulator joint indices. -/
theorem setActiveKinematicChain_accepts_iff (s : State) (jointNames : List String)
    (nm : String) (v : Int) :
    ((setActiveKinematicChain s jointNames).1 = true
      ↔ (jointNames.length = s.vec_joint_indices.length
        ∧ ∀ x, x ∈ jointNames →
          ∃ w, NameMap.find s.map_joint_names_2_indices x = some w))
    ∧ ((setActiveKinematicChain s jointNames).1 = true →
        (setActiveKinematicChain s jointNames).2.map_joint_names_2_indices
          = s.map_joint_names_2_indices
        ∧ (setActiveKinematicChain s jointNames).2.vec_joint_indices
          = jointNames.map (NameMap.value s.map_joint_names_2_indices))
    ∧ ((setActiveKinematicChain s jointNames).1 = true → ¬ jointNames.Nodup →
        ¬ (setActiveKinematicChain s jointNames).2.vec_joint_indices.Nodup
        ∧ (s.vec_joint_indices.Nodup →
          ¬ List.Perm (setActiveKinematicChain s jointNames).2.vec_joint_indices
              s.vec_joint_indices))
    ∧ ((2 ≤ s.vec_joint_indices.length
          ∧ NameMap.find s.map_joint_names_2_indices nm = some v) →
        ¬ (List.replicate s.vec_joint_indices.length nm).Nodup
        ∧ (setActiveKinematicChain s (List.replicate s.vec_joint_indices.length nm)).1 = true
        ∧ (setActiveKinematicChain s
            (List.replicate s.vec_joint_indices.length nm)).2.vec_joint_indices
          = List.replicate s.vec_joint_indices.length v)
    ∧ (∀ (sim : Sim) (heap : Heap) (s0 : State),
        (configure sim heap s0).1 = true → s = (configure sim heap s0).2 →
        ((activeJoints sim s0.robot_id (sim.getNumJoints s0.robot_id).toNat).map
          (fun j => j.m_jointIndex)).Nodup →
        s.vec_joint_indices.Nodup) := by
  refine ⟨setActiveKinematicChain_true_iff s jointNames, ?_, ?_, ?_, ?_⟩
  · intro h
    obtain ⟨g1, g2, _, _⟩ := setActiveKinematicChain_success s jointNames h
    exact ⟨g1, g2⟩
  · intro h hdup
    obtain ⟨_, g2, _, _⟩ := setActiveKinematicChain_success s jointNames h
    rw [g2]
    have hn : ¬ (jointNames.map (NameMap.value s.map_joint_names_2_indices)).Nodup :=
      fun hnd => hdup (List.Nodup.of_map _ hnd)
    refine ⟨hn, ?_⟩
    intro hs hperm
    exact hn (hperm.nodup_iff.mpr hs)
  · rintro ⟨h2, hfind⟩
    have hacc : (setActiveKinematicChain s
        (List.replicate s.vec_joint_indices.length nm)).1 = true := by
      rw [setActiveKinematicChain_true_iff]
      refine ⟨by simp, ?_⟩
      intro x hx
      rw [List.eq_of_mem_replicate hx]
      exact ⟨v, hfind⟩
    obtain ⟨_, g2, _, _⟩ := setActiveKinematicChain_success s _ hacc
    refine ⟨?_, hacc, ?_⟩
    · intro hnd
      have hle := List.nodup_replicate.mp hnd
      omega
    · rw [g2, List.map_replicate]
      simp [NameMap.value, hfind]
  · intro sim heap s0 hcfg hs hnd
    obtain ⟨_, _, _, hc⟩ := configure_true sim heap s0 hcfg
    obtain ⟨c1, _, _, _⟩ := configureSetup_indices sim heap s0 (sim.getNumJoints s0.robot_id)
    rw [hs, hc]
    simp only
    rw [c1]
    exact hnd

/-- Instance of C19 (amended) on the configured demo robot: the list "elbow",
"elbow" is accepted, the index sequence becomes 2, 2, which is not a
permutation of the configured sequence 0, 2, and the mapping is unchanged. -/
theorem setActiveKinematicChain_accepts_iff_witness :
    (demoState.vec_joint_indices = [0, 2]
      ∧ (setActiveKinematicChain demoState ["elbow", "elbow"]).1 = true
      ∧ (setActiveKinematicChain demoState ["elbow", "elbow"]).2.vec_joint_indices = [2, 2]
      ∧ (setActiveKinematicChain demoState ["elbow", "elbow"]).2.joint_indices = [2, 2]
      ∧ (setActiveKinematicChain demoState ["elbow", "elbow"]).2.map_joint_names_2_indices
          = demoState.map_joint_names_2_indices)
    ∧ (¬ (setActiveKinematicChain demoState ["elbow", "elbow"]).2.vec_joint_indices.Nodup
      ∧ ¬ List.Perm (setActiveKinematicChain demoState ["elbow", "elbow"]).2.vec_joint_indices
            demoState.vec_joint_indices) :=
  ⟨by decide,
    ⟨((setActiveKinematicChain_accepts_iff demoState ["elbow", "elbow"] "elbow" 2).2.2.1
        (by decide) (by decide)).1,
     ((setActiveKinematicChain_accepts_iff demoState ["elbow", "elbow"] "elbow" 2).2.2.1
        (by decide) (by decide)).2 (by decide)⟩⟩

/-- C20: in every state reached from a successful `configure` by any sequence
of `setActiveKinematicChain`, `setControlMode`, `readFromOrocos`, `sense`,
`act` and `writeToOrocos` calls, `vec_joint_indices` has exactly `num_joints`
entries and the raw index array agrees with it: `joint_indices` has the same
`num_joints` entries, `joint_indices[i] = vec_joint_indices[i]` for every
`i < num_joints`. -/
theorem index_arrays_agree (sim : Sim) (heap : Heap) (s0 : State) (calls : List Call)
    (h : (configure sim heap s0).1 = true) :
    ((runCalls calls (configure sim heap s0).2).vec_joint_indices.length : Int)
        = (runCalls calls (configure sim heap s0).2).num_joints
    ∧ (runCalls calls (configure sim heap s0).2).vec_joint_indices.length
        = loopCount (runCalls calls (configure sim heap s0).2).num_joints
    ∧ (runCalls calls (configure sim heap s0).2).joint_indices.length
        = loopCount (runCalls calls (configure sim heap s0).2).num_joints
    ∧ (runCalls calls (configure sim heap s0).2).joint_indices
        = (runCalls calls (configure sim heap s0).2).vec_joint_indices
    ∧ ∀ i, i < loopCount (runCalls calls (configure sim heap s0).2).num_joints →
        (runCalls calls (configure sim heap s0).2).joint_indices.getD i 0
          = (runCalls calls (configure sim heap s0).2).vec_joint_indices.getD i 0 := by
  obtain ⟨_, _, _, hc⟩ := configure_true sim heap s0 h
  obtain ⟨c1, _, c3, c4⟩ := configureSetup_indices sim heap s0 (sim.getNumJoints s0.robot_id)
  have b1 : ((configure sim heap s0).2.vec_joint_indices.length : Int)
      = (configure sim heap s0).2.num_joints := by
    rw [hc]
    simp only
    rw [c1, c3, List.length_map]
  have b2 : (configure sim heap s0).2.joint_indices
      = (configure sim heap s0).2.vec_joint_indices := by
    rw [hc]
    simp only
    rw [c1, c4]
  obtain ⟨g1, g2⟩ := runCalls_indices calls (configure sim heap s0).2 b1 b2
  have g3 : (runCalls calls (configure sim heap s0).2).vec_joint_indices.length
      = loopCount (runCalls calls (configure sim heap s0).2).num_joints := by
    rw [← g1]
    simp [loopCount]
  refine ⟨g1, g3, ?_, g2, ?_⟩
  · rw [g2]
    exact g3
  · intro i _
    rw [g2]

/-- Instance of C20 on the demo robot: after reordering the chain, a rejected
reordering, a mode request, a command read, `sense` and `act`, both index
containers hold 2, 0 and `num_joints` is 2. -/
theorem index_arrays_agree_witness :
    ((configure demoSim demoHeap demoInit).1 = true
      ∧ (runCalls
          [Call.setActiveKinematicChain ["elbow", "shoulder"],
           Call.setActiveKinematicChain ["elbow"],
           Call.setControlMode "JointTorqueCtrl",
           Call.readFromOrocos silentPort freshTorquePort,
           Call.sense demoSim,
           Call.act]
          (configure demoSim demoHeap demoInit).2).vec_joint_indices = [2, 0]
      ∧ (runCalls
          [Call.setActiveKinematicChain ["elbow", "shoulder"],
           Call.setActiveKinematicChain ["elbow"],
           Call.setControlMode "JointTorqueCtrl",
           Call.readFromOrocos silentPort freshTorquePort,
           Call.sense demoSim,
           Call.act]
          (configure demoSim demoHeap demoInit).2).num_joints = 2)
    ∧ (runCalls
          [Call.setActiveKinematicChain ["elbow", "shoulder"],
           Call.setActiveKinematicChain ["elbow"],
           Call.setControlMode "JointTorqueCtrl",
           Call.readFromOrocos silentPort freshTorquePort,
           Call.sense demoSim,
           Call.act]
          (configure demoSim demoHeap demoInit).2).joint_indices
        = (runCalls
          [Call.setActiveKinematicChain ["elbow", "shoulder"],
           Call.setActiveKinematicChain ["elbow"],
           Call.setControlMode "JointTorqueCtrl",
           Call.readFromOrocos silentPort freshTorquePort,
           Call.sense demoSim,
           Call.act]
          (configure demoSim demoHeap demoInit).2).vec_joint_indices :=
  ⟨by decide,
    (index_arrays_agree demoSim demoHeap demoInit
      [Call.setActiveKinematicChain ["elbow", "shoulder"],
       Call.setActiveKinematicChain ["elbow"],
       Call.setControlMode "JointTorqueCtrl",
       Call.readFromOrocos silentPort freshTorquePort,
       Call.sense demoSim,
       Call.act]
      (by decide)).2.2.2.1⟩

end cosima
